import Mathlib

/-!
Verification of the DME-DME trilateration solver in src/tri.py.

The five core functions of tri.py are embedded over the real numbers.
Python float arithmetic is modelled as exact real arithmetic; the partial
library calls are made explicit:
  - math.sqrt raises ValueError (a domain error) on a negative argument;
  - math.asin / math.acos raise ValueError outside [-1, 1];
  - float division raises ZeroDivisionError on a zero denominator;
  - math.atan2 is total, with range (-pi, pi], and atan2(0, 0) = 0.
Fallible computations therefore return Except Err.
-/

open Real

/-- Error kinds raised by the math library calls in tri.py: domainError
models Python ValueError (math domain error) from sqrt, asin, acos;
zeroDivision models ZeroDivisionError from float division. -/
inductive Err where
  | domainError : Err
  | zeroDivision : Err
  deriving DecidableEq

/-- Python math.atan2 y x on real inputs: the argument of the complex
number x + y*i, with range (-pi, pi] and atan2 0 0 = 0. -/
noncomputable def atan2 (y x : ℝ) : ℝ := Complex.arg ⟨x, y⟩

/-- One half of step_0 in tri.py (lines 11-13, and again 15-17): converts a
slant range d between a station at altitude h_s and the aircraft at
altitude h_a into the angular distance at the Earth's center,
2 * asin(0.5 * sqrt(a / b)).  The spec calls this AngularDistanceFromRange. -/
noncomputable def angularDistanceFromRange (r_e h_s h_a d : ℝ) : Except Err ℝ :=
  let a := (d - h_a + h_s) * (d + h_a - h_s)
  let b := (r_e + h_s) * (r_e + h_a)
  if b = 0 then .error .zeroDivision
  else if a / b < 0 then .error .domainError
  else if 1 < |(1/2 : ℝ) * Real.sqrt (a / b)| then .error .domainError
  else .ok (2 * Real.arcsin ((1/2) * Real.sqrt (a / b)))

/-- step_0 of tri.py (lines 7-20): both station-aircraft angular distances. -/
noncomputable def step_0 (r_e h_u h_s h_a d_ua d_sa : ℝ) : Except Err (ℝ × ℝ) := do
  let theta_ua ← angularDistanceFromRange r_e h_u h_a d_ua
  let theta_sa ← angularDistanceFromRange r_e h_s h_a d_sa
  return (theta_ua, theta_sa)

/-- step_1 of tri.py (lines 23-38): the haversine angular distance between
the two stations and the azimuth of one relative to the other.  The spec
calls this StationPairGeometry. -/
noncomputable def step_1 (lat_u lon_u lat_s lon_s : ℝ) : Except Err (ℝ × ℝ) :=
  let a := Real.sin ((1/2) * (lat_s - lat_u))
  let b := Real.sin ((1/2) * (lon_s - lon_u))
  if a * a + Real.cos lat_s * Real.cos lat_u * b * b < 0 then .error .domainError
  else
    let c := Real.sqrt (a * a + Real.cos lat_s * Real.cos lat_u * b * b)
    if 1 < |c| then .error .domainError
    else
      .ok (2 * Real.arcsin c,
        atan2 (Real.cos lat_s * Real.sin (lon_s - lon_u))
          (Real.sin lat_s * Real.cos lat_u -
            Real.cos lat_s * Real.sin lat_u * Real.cos (lon_s - lon_u)))

/-- step_2 of tri.py (lines 41-53): whether the two DME small circles
intersect.  The spec calls this FeasibilityCheck. -/
noncomputable def step_2 (theta_us theta_ua theta_sa : ℝ) : Bool :=
  if theta_ua + theta_sa < theta_us then false
  else if |theta_ua - theta_sa| > theta_us then false
  else true

/-- step_3 of tri.py (lines 56-63): one angle of the U-S-aircraft spherical
triangle, via the spherical law of cosines.  The spec calls this
TriangleSolve. -/
noncomputable def step_3 (theta_us theta_ua theta_sa : ℝ) : Except Err ℝ :=
  let a := Real.cos theta_sa - Real.cos theta_us * Real.cos theta_ua
  let b := Real.sin theta_us * Real.sin theta_ua
  if b = 0 then .error .zeroDivision
  else if 1 < |a / b| then .error .domainError
  else .ok (Real.arccos (a / b))

/-- step_4 of tri.py (lines 66-86): aircraft coordinates from station U,
the triangle angle beta_u, the azimuth psi_su and the angular distance
theta_ua; ac_south selects one of the two mirrored solutions.  The spec
calls this PositionResolve. -/
noncomputable def step_4 (ac_south : Bool) (lat_u lon_u beta_u psi_su theta_ua : ℝ) :
    Except Err (ℝ × ℝ) :=
  let psi_au := if ac_south then psi_su + beta_u else psi_su - beta_u
  let a := Real.sin lat_u * Real.cos theta_ua
  let b := Real.cos lat_u * Real.sin theta_ua * Real.cos psi_au
  if 1 < |a + b| then .error .domainError
  else
    .ok (Real.arcsin (a + b),
      atan2 (Real.sin psi_au * Real.sin theta_ua)
        (Real.cos lat_u * Real.cos theta_ua -
          Real.sin lat_u * Real.sin theta_ua * Real.cos psi_au) + lon_u)

/-! ## Claim C4: the feasibility test and its inclusive boundary -/

/-- Claim C4: step_2 returns false exactly when theta_ua + theta_sa <
theta_us or |theta_ua - theta_sa| > theta_us, and true otherwise; the
boundary is inclusive: at theta_ua + theta_sa = theta_us (with
|theta_ua - theta_sa| <= theta_us) the result is true. -/
theorem step_2_false_iff (theta_us theta_ua theta_sa : ℝ) :
    (step_2 theta_us theta_ua theta_sa = false ↔
      theta_ua + theta_sa < theta_us ∨ |theta_ua - theta_sa| > theta_us) ∧
    (theta_ua + theta_sa = theta_us → |theta_ua - theta_sa| ≤ theta_us →
      step_2 theta_us theta_ua theta_sa = true) := by
  constructor
  · unfold step_2
    split_ifs with h1 h2
    · simp [h1]
    · simp [h1, h2]
    · simp [h1, h2]
  · intro hsum habs
    unfold step_2
    rw [if_neg (by linarith), if_neg (by simpa using not_lt.mpr habs)]

/-- Witness for C4 at theta_us = 2, theta_ua = 1, theta_sa = 1 (the
inclusive boundary case). -/
theorem step_2_false_iff_witness :
    (step_2 2 1 1 = false ↔ (1:ℝ) + 1 < 2 ∨ |(1:ℝ) - 1| > 2) ∧
    ((1:ℝ) + 1 = 2 → |(1:ℝ) - 1| ≤ 2 → step_2 2 1 1 = true) :=
  step_2_false_iff 2 1 1

/-! ## Claim C6: altitude-swap symmetry of the range conversion -/

/-- Claim C6: swapping the two altitude roles leaves the angular distance
computed by the step_0 formula unchanged (here proved for all real inputs,
in particular on the claim's valid domain). -/
theorem angularDistanceFromRange_swap (r_e h1 h2 d : ℝ) :
    angularDistanceFromRange r_e h1 h2 d = angularDistanceFromRange r_e h2 h1 d := by
  unfold angularDistanceFromRange
  rw [show (d - h2 + h1) * (d + h2 - h1) = (d - h1 + h2) * (d + h1 - h2) by ring,
    show (r_e + h1) * (r_e + h2) = (r_e + h2) * (r_e + h1) by ring]

/-! ## Claim C2: failure condition of the range-to-angle conversion -/

/-- Claim C2 (amended): with a nonzero denominator b, the step_0 half fails
(with a domain error) if and only if a/b lies outside [0, 4] -- not [0, 1]
as claimed, because the asin argument is 0.5 * sqrt(a/b), which only
exceeds 1 once a/b exceeds 4; inside [0, 4] it returns
2 * asin(0.5 * sqrt(a/b)). -/
theorem angularDistanceFromRange_spec (r_e h_s h_a d ρ : ℝ)
    (hρ : ρ = ((d - h_a + h_s) * (d + h_a - h_s)) / ((r_e + h_s) * (r_e + h_a)))
    (hb : (r_e + h_s) * (r_e + h_a) ≠ 0) :
    (angularDistanceFromRange r_e h_s h_a d = .error .domainError ↔ ρ < 0 ∨ 4 < ρ) ∧
    (0 ≤ ρ → ρ ≤ 4 →
      angularDistanceFromRange r_e h_s h_a d = .ok (2 * Real.arcsin ((1/2) * Real.sqrt ρ))) := by
  unfold angularDistanceFromRange
  rw [if_neg hb, ← hρ]
  by_cases hneg : ρ < 0
  · rw [if_pos hneg]
    exact ⟨by simp [hneg], fun h0 _ => absurd hneg (not_lt.mpr h0)⟩
  · rw [if_neg hneg]
    have h0 : (0:ℝ) ≤ ρ := not_lt.mp hneg
    have habs : |(1/2 : ℝ) * Real.sqrt ρ| = (1/2) * Real.sqrt ρ :=
      abs_of_nonneg (by positivity)
    by_cases h4 : 4 < ρ
    · have hgt : 1 < |(1/2 : ℝ) * Real.sqrt ρ| := by
        rw [habs]
        have : (2:ℝ) < Real.sqrt ρ := (Real.lt_sqrt (by norm_num)).mpr (by nlinarith)
        linarith
      rw [if_pos hgt]
      exact ⟨by simp [h4], fun _ hle => absurd h4 (not_lt.mpr hle)⟩
    · have hle4 : ρ ≤ 4 := not_lt.mp h4
      have hsq : Real.sqrt ρ ≤ 2 := by
        have : Real.sqrt ρ ≤ Real.sqrt 4 := Real.sqrt_le_sqrt hle4
        rwa [show (4:ℝ) = 2^2 by norm_num, Real.sqrt_sq (by norm_num)] at this
      have hng : ¬ (1 < |(1/2 : ℝ) * Real.sqrt ρ|) := by
        rw [habs]; push_neg; linarith
      rw [if_neg hng]
      exact ⟨by simp [hneg, h4], fun _ _ => rfl⟩

/-- Witness for C2 (amended) at r_e = 1, h_s = 0, h_a = 0, d = 1, where
a/b = 1 lies inside [0, 4]. -/
theorem angularDistanceFromRange_spec_witness :
    ((1:ℝ) = ((1 - 0 + 0) * (1 + 0 - 0)) / (((1:ℝ) + 0) * (1 + 0)) ∧
      ((1:ℝ) + 0) * (1 + 0) ≠ 0) ∧
    ((angularDistanceFromRange 1 0 0 1 = .error .domainError ↔ (1:ℝ) < 0 ∨ 4 < (1:ℝ)) ∧
      ((0:ℝ) ≤ 1 → (1:ℝ) ≤ 4 →
        angularDistanceFromRange 1 0 0 1 = .ok (2 * Real.arcsin ((1/2) * Real.sqrt 1)))) :=
  ⟨⟨by norm_num, by norm_num⟩,
    angularDistanceFromRange_spec 1 0 0 1 1 (by norm_num) (by norm_num)⟩

/-- Counterexample for C2 as stated: at r_e = 1, h_s = h_a = 0, d = 3/2 the
ratio a/b equals 9/4, which is outside [0, 1], yet the code returns an
angle (no DomainError), because the asin argument 0.5 * sqrt(9/4) = 3/4 is
still within [-1, 1]. -/
theorem angularDistanceFromRange_cex :
    (∃ θ, angularDistanceFromRange 1 0 0 (3/2) = .ok θ) ∧
    1 < (((3:ℝ)/2 - 0 + 0) * ((3:ℝ)/2 + 0 - 0)) / (((1:ℝ) + 0) * ((1:ℝ) + 0)) := by
  constructor
  · refine ⟨2 * Real.arcsin ((1/2) *
      Real.sqrt ((((3:ℝ)/2) - 0 + 0) * (((3:ℝ)/2) + 0 - 0) / (((1:ℝ) + 0) * ((1:ℝ) + 0)))), ?_⟩
    unfold angularDistanceFromRange
    have hρ : (((3:ℝ)/2) - 0 + 0) * (((3:ℝ)/2) + 0 - 0) / (((1:ℝ) + 0) * ((1:ℝ) + 0)) =
        (3/2)^2 := by norm_num
    rw [if_neg (by norm_num), if_neg (by norm_num),
      if_neg (by rw [hρ, Real.sqrt_sq (by norm_num)]; rw [abs_of_nonneg (by norm_num)]; norm_num)]
  · norm_num

/-! ## Claim C1: feasibility versus the acos domain in the triangle solve -/

/-- Helper: on [0, pi] the cosine comparison reverses the angle comparison. -/
lemma cos_le_cos_iff_of_mem {a b : ℝ} (ha0 : 0 ≤ a) (haπ : a ≤ π) (hb0 : 0 ≤ b) (hbπ : b ≤ π) :
    Real.cos a ≤ Real.cos b ↔ b ≤ a :=
  Real.strictAntiOn_cos.le_iff_le ⟨ha0, haπ⟩ ⟨hb0, hbπ⟩

/-- Helper: on [0, pi] strict cosine comparison reverses strict angle
comparison. -/
lemma cos_lt_cos_iff_of_mem {a b : ℝ} (ha0 : 0 ≤ a) (haπ : a ≤ π) (hb0 : 0 ≤ b) (hbπ : b ≤ π) :
    Real.cos a < Real.cos b ↔ b < a :=
  Real.strictAntiOn_cos.lt_iff_lt ⟨ha0, haπ⟩ ⟨hb0, hbπ⟩

/-- Claim C1 (amended): for angular distances in (0, pi), if step_2 returns
true AND the triangle perimeter theta_us + theta_ua + theta_sa is at most
2*pi, then the acos argument of step_3 lies in [-1, 1] and step_3 returns
an angle; if step_2 returns false then the argument lies outside [-1, 1]
and step_3 fails with a DomainError.  (The perimeter condition is missing
from the claim as stated: step_2 alone does not bound the argument below
by -1.) -/
theorem step_2_gates_step_3 (x u s : ℝ)
    (hx0 : 0 < x) (hxpi : x < π) (hu0 : 0 < u) (hupi : u < π) (hs0 : 0 < s) (hspi : s < π) :
    (step_2 x u s = true → x + u + s ≤ 2 * π → ∃ β, step_3 x u s = .ok β) ∧
    (step_2 x u s = false → step_3 x u s = .error .domainError) := by
  have hsx : 0 < Real.sin x := Real.sin_pos_of_pos_of_lt_pi hx0 hxpi
  have hsu : 0 < Real.sin u := Real.sin_pos_of_pos_of_lt_pi hu0 hupi
  have hb : 0 < Real.sin x * Real.sin u := mul_pos hsx hsu
  have hbne : Real.sin x * Real.sin u ≠ 0 := ne_of_gt hb
  constructor
  · intro htrue hperim
    -- from step_2 = true extract the two triangle inequalities
    have h1 : ¬ (u + s < x) := by
      intro h; unfold step_2 at htrue; rw [if_pos h] at htrue; exact absurd htrue (by simp)
    have h2 : ¬ (|u - s| > x) := by
      intro h
      unfold step_2 at htrue
      rw [if_neg h1, if_pos h] at htrue
      exact absurd htrue (by simp)
    have hxs : x ≤ u + s := not_lt.mp h1
    have habs : |u - s| ≤ x := not_lt.mp (by simpa using h2)
    have hus1 : u - s ≤ x := (abs_le.mp habs).2
    have hus2 : -(x) ≤ u - s := (abs_le.mp habs).1
    -- upper bound: cos s <= cos |x - u| so the numerator is at most the denominator
    have hupper : Real.cos s - Real.cos x * Real.cos u ≤ Real.sin x * Real.sin u := by
      have hxu : Real.cos s ≤ Real.cos (x - u) := by
        rw [← Real.cos_abs (x - u)]
        refine (cos_le_cos_iff_of_mem (le_of_lt hs0) (le_of_lt hspi)
          (abs_nonneg _) ?_).mpr ?_
        · rw [abs_le]; constructor <;> linarith
        · rw [abs_le]; constructor <;> linarith
      rw [Real.cos_sub] at hxu
      linarith
    -- lower bound: cos (x + u) <= cos s, using the perimeter condition when
    -- x + u exceeds pi
    have hlower : -(Real.sin x * Real.sin u) ≤ Real.cos s - Real.cos x * Real.cos u := by
      have hxu : Real.cos (x + u) ≤ Real.cos s := by
        by_cases hcase : x + u ≤ π
        · refine (cos_le_cos_iff_of_mem ?_ hcase (le_of_lt hs0) (le_of_lt hspi)).mpr ?_
          · linarith
          · linarith
        · have hrw : Real.cos (x + u) = Real.cos (2 * π - (x + u)) := by
            rw [Real.cos_sub, Real.cos_two_pi, Real.sin_two_pi]; ring
          rw [hrw]
          refine (cos_le_cos_iff_of_mem ?_ ?_ (le_of_lt hs0) (le_of_lt hspi)).mpr ?_
          · linarith
          · push_neg at hcase; linarith
          · linarith
      rw [Real.cos_add] at hxu
      linarith
    have hargle : ¬ (1 < |(Real.cos s - Real.cos x * Real.cos u) /
        (Real.sin x * Real.sin u)|) := by
      push_neg
      rw [abs_div, abs_of_pos hb]
      rw [div_le_one hb]
      rw [abs_le]
      exact ⟨by linarith, hupper⟩
    refine ⟨Real.arccos ((Real.cos s - Real.cos x * Real.cos u) /
      (Real.sin x * Real.sin u)), ?_⟩
    unfold step_3
    rw [if_neg hbne, if_neg hargle]
  · intro hfalse
    -- step_2 = false means one of the two rejection branches was taken
    have hcases : u + s < x ∨ x < |u - s| := by
      by_cases h1 : u + s < x
      · exact Or.inl h1
      · by_cases h2 : |u - s| > x
        · exact Or.inr h2
        · unfold step_2 at hfalse
          rw [if_neg h1, if_neg h2] at hfalse
          exact absurd hfalse (by simp)
    -- in every rejection case the acos argument leaves [-1, 1]
    have hbig : 1 < |(Real.cos s - Real.cos x * Real.cos u) / (Real.sin x * Real.sin u)| := by
      rcases hcases with hfar | hconc
      · -- circles too remote: s < x - u, argument exceeds 1
        have hgt : Real.cos (x - u) < Real.cos s := by
          refine (cos_lt_cos_iff_of_mem ?_ ?_ (le_of_lt hs0) (le_of_lt hspi)).mpr ?_
          · linarith
          · linarith
          · linarith
        rw [Real.cos_sub] at hgt
        have : 1 < (Real.cos s - Real.cos x * Real.cos u) / (Real.sin x * Real.sin u) :=
          (one_lt_div hb).mpr (by linarith)
        calc 1 < (Real.cos s - Real.cos x * Real.cos u) / (Real.sin x * Real.sin u) := this
          _ ≤ |(Real.cos s - Real.cos x * Real.cos u) / (Real.sin x * Real.sin u)| :=
            le_abs_self _
      · rcases lt_abs.mp hconc with hgtu | hgts
        · -- one circle inside the other: s < u - x, argument exceeds 1
          have hgt : Real.cos (u - x) < Real.cos s := by
            refine (cos_lt_cos_iff_of_mem ?_ ?_ (le_of_lt hs0) (le_of_lt hspi)).mpr ?_
            · linarith
            · linarith
            · linarith
          rw [Real.cos_sub] at hgt
          have : 1 < (Real.cos s - Real.cos x * Real.cos u) / (Real.sin x * Real.sin u) :=
            (one_lt_div hb).mpr (by nlinarith)
          calc 1 < (Real.cos s - Real.cos x * Real.cos u) / (Real.sin x * Real.sin u) := this
            _ ≤ |(Real.cos s - Real.cos x * Real.cos u) / (Real.sin x * Real.sin u)| :=
              le_abs_self _
        · -- the other containment: x + u < s, argument drops below -1
          have hgt : Real.cos s < Real.cos (x + u) := by
            refine (cos_lt_cos_iff_of_mem (le_of_lt hs0) (le_of_lt hspi) ?_ ?_).mpr ?_
            · linarith
            · linarith
            · linarith
          rw [Real.cos_add] at hgt
          have hneg : (Real.cos s - Real.cos x * Real.cos u) / (Real.sin x * Real.sin u) < -1 :=
            (div_lt_iff₀ hb).mpr (by linarith)
          rw [abs_of_neg (by linarith)]
          linarith
    unfold step_3
    rw [if_neg hbne, if_pos hbig]

/-- Witness for C1 (amended) at theta_us = theta_ua = theta_sa = 1: the
hypotheses hold, step_2 returns true, the perimeter is below 2*pi, and
step_3 returns an angle. -/
theorem step_2_gates_step_3_witness :
    ((0:ℝ) < 1 ∧ (1:ℝ) < π) ∧
    ((step_2 1 1 1 = true → (1:ℝ) + 1 + 1 ≤ 2 * π → ∃ β, step_3 1 1 1 = .ok β) ∧
      (step_2 1 1 1 = false → step_3 1 1 1 = .error .domainError)) :=
  ⟨⟨by norm_num, by linarith [Real.pi_gt_three]⟩,
    step_2_gates_step_3 1 1 1 (by norm_num) (by linarith [Real.pi_gt_three])
      (by norm_num) (by linarith [Real.pi_gt_three])
      (by norm_num) (by linarith [Real.pi_gt_three])⟩

/-- Counterexample for C1 as stated: at theta_us = 2, theta_ua = 2,
theta_sa = 3 (all inside (0, pi)) step_2 returns true, yet the acos
argument is below -1 and step_3 raises a DomainError, because the
perimeter 7 exceeds 2*pi. -/
theorem step_2_gates_step_3_cex :
    ((0:ℝ) < 2 ∧ (2:ℝ) < π ∧ (0:ℝ) < 3 ∧ (3:ℝ) < π) ∧
    step_2 2 2 3 = true ∧ step_3 2 2 3 = .error .domainError := by
  have hpi3 : (3:ℝ) < π := Real.pi_gt_three
  refine ⟨⟨by norm_num, by linarith, by norm_num, hpi3⟩, ?_, ?_⟩
  · unfold step_2
    rw [if_neg (by norm_num), if_neg ?_]
    rw [show (2:ℝ) - 3 = -1 by norm_num, abs_neg, abs_one]
    norm_num
  · have hs2 : 0 < Real.sin 2 := Real.sin_pos_of_pos_of_lt_pi (by norm_num) (by linarith)
    have hb : 0 < Real.sin 2 * Real.sin 2 := mul_pos hs2 hs2
    have hcos4 : Real.cos 4 = Real.cos 2 ^ 2 - Real.sin 2 ^ 2 := by
      rw [show (4:ℝ) = 2 * 2 by norm_num, Real.cos_two_mul']
    have hcos34 : Real.cos 3 < Real.cos 4 := by
      have hrw : Real.cos 4 = Real.cos (2 * π - 4) := by
        rw [Real.cos_sub, Real.cos_two_pi, Real.sin_two_pi]; ring
      rw [hrw]
      refine (cos_lt_cos_iff_of_mem (by norm_num) (le_of_lt hpi3) ?_ ?_).mpr ?_
      · linarith [Real.pi_gt_three]
      · linarith [Real.pi_lt_four]
      · linarith [Real.pi_lt_d2]
    have hlt : Real.cos 3 - Real.cos 2 * Real.cos 2 < -(Real.sin 2 * Real.sin 2) := by
      nlinarith
    have hdiv : (Real.cos 3 - Real.cos 2 * Real.cos 2) / (Real.sin 2 * Real.sin 2) < -1 :=
      (div_lt_iff₀ hb).mpr (by linarith)
    unfold step_3
    rw [if_neg (ne_of_gt hb), if_pos ?_]
    rw [abs_of_neg (by linarith)]
    linarith

/-! ## Claim C7: coincident stations make the triangle solve fail -/


/-- Claim C7 (amended): with theta_us = 0 the denominator
sin(theta_us) * sin(theta_ua) is zero, so step_3 always fails with a
ZeroDivisionError (not the acos domain error the spec's TriangleDegenerate
names), and never returns an angle. -/
theorem step_3_zero_sep (theta_ua theta_sa : ℝ) :
    step_3 0 theta_ua theta_sa = .error .zeroDivision := by
  unfold step_3
  rw [if_pos (by rw [Real.sin_zero, zero_mul])]

/-- Counterexample for C7 as stated: at theta_us = 0, theta_ua = 1,
theta_sa = 1 the error raised is a ZeroDivisionError, which is not the
domain-style acos failure the claim describes. -/
theorem step_3_zero_sep_cex :
    step_3 0 1 1 = .error .zeroDivision ∧
      (Except.error Err.zeroDivision : Except Err ℝ) ≠ .error .domainError := by
  refine ⟨step_3_zero_sep 1 1, ?_⟩
  simp

/-! ## Claim C8: the station-pair geometry never fails -/

/-- Claim C8: for latitudes in [-pi/2, pi/2] and arbitrary longitudes,
step_1 returns without a domain error (the square-root argument is
nonnegative and the asin argument is at most 1) and the returned angular
distance lies in [0, pi]. -/
theorem step_1_total (lat_u lon_u lat_s lon_s : ℝ)
    (hu1 : -(π/2) ≤ lat_u) (hu2 : lat_u ≤ π/2)
    (hs1 : -(π/2) ≤ lat_s) (hs2 : lat_s ≤ π/2) :
    ∃ θ ψ, step_1 lat_u lon_u lat_s lon_s = .ok (θ, ψ) ∧ 0 ≤ θ ∧ θ ≤ π := by
  have hcu : 0 ≤ Real.cos lat_u := Real.cos_nonneg_of_mem_Icc ⟨hu1, hu2⟩
  have hcs : 0 ≤ Real.cos lat_s := Real.cos_nonneg_of_mem_Icc ⟨hs1, hs2⟩
  have hc0 : 0 ≤ Real.sin ((1/2) * (lat_s - lat_u)) * Real.sin ((1/2) * (lat_s - lat_u)) +
      Real.cos lat_s * Real.cos lat_u *
        Real.sin ((1/2) * (lon_s - lon_u)) * Real.sin ((1/2) * (lon_s - lon_u)) := by
    nlinarith [mul_self_nonneg (Real.sin ((1/2) * (lat_s - lat_u))),
      mul_self_nonneg (Real.sin ((1/2) * (lon_s - lon_u))), mul_nonneg hcs hcu]
  have ha2 : Real.sin ((1/2) * (lat_s - lat_u)) * Real.sin ((1/2) * (lat_s - lat_u)) =
      1/2 - Real.cos (lat_s - lat_u) / 2 := by
    have h := Real.sin_sq_eq_half_sub ((1/2) * (lat_s - lat_u))
    rw [show 2 * ((1/2) * (lat_s - lat_u)) = lat_s - lat_u by ring] at h
    nlinarith [h]
  have hb2 : Real.sin ((1/2) * (lon_s - lon_u)) * Real.sin ((1/2) * (lon_s - lon_u)) ≤ 1 := by
    nlinarith [Real.neg_one_le_sin ((1/2) * (lon_s - lon_u)),
      Real.sin_le_one ((1/2) * (lon_s - lon_u))]
  have hc1 : Real.sin ((1/2) * (lat_s - lat_u)) * Real.sin ((1/2) * (lat_s - lat_u)) +
      Real.cos lat_s * Real.cos lat_u *
        Real.sin ((1/2) * (lon_s - lon_u)) * Real.sin ((1/2) * (lon_s - lon_u)) ≤ 1 := by
    have hadd : Real.cos (lat_s + lat_u) ≤ 1 := Real.cos_le_one _
    rw [Real.cos_add] at hadd
    rw [ha2, Real.cos_sub]
    nlinarith [mul_nonneg hcs hcu, hb2]
  have hsq1 : Real.sqrt (Real.sin ((1/2) * (lat_s - lat_u)) * Real.sin ((1/2) * (lat_s - lat_u)) +
      Real.cos lat_s * Real.cos lat_u *
        Real.sin ((1/2) * (lon_s - lon_u)) * Real.sin ((1/2) * (lon_s - lon_u))) ≤ 1 :=
    Real.sqrt_le_one.mpr hc1
  have hguard : ¬ (1 < |Real.sqrt (Real.sin ((1/2) * (lat_s - lat_u)) *
      Real.sin ((1/2) * (lat_s - lat_u)) + Real.cos lat_s * Real.cos lat_u *
        Real.sin ((1/2) * (lon_s - lon_u)) * Real.sin ((1/2) * (lon_s - lon_u)))|) := by
    rw [abs_of_nonneg (Real.sqrt_nonneg _)]
    exact not_lt.mpr hsq1
  have heq : step_1 lat_u lon_u lat_s lon_s = .ok
      (2 * Real.arcsin (Real.sqrt (Real.sin ((1/2) * (lat_s - lat_u)) *
          Real.sin ((1/2) * (lat_s - lat_u)) + Real.cos lat_s * Real.cos lat_u *
          Real.sin ((1/2) * (lon_s - lon_u)) * Real.sin ((1/2) * (lon_s - lon_u)))),
        atan2 (Real.cos lat_s * Real.sin (lon_s - lon_u))
          (Real.sin lat_s * Real.cos lat_u -
            Real.cos lat_s * Real.sin lat_u * Real.cos (lon_s - lon_u))) := by
    unfold step_1
    rw [if_neg (not_lt.mpr hc0), if_neg hguard]
  refine ⟨_, _, heq, ?_, ?_⟩
  · have := Real.arcsin_nonneg.mpr (Real.sqrt_nonneg (Real.sin ((1/2) * (lat_s - lat_u)) *
      Real.sin ((1/2) * (lat_s - lat_u)) + Real.cos lat_s * Real.cos lat_u *
        Real.sin ((1/2) * (lon_s - lon_u)) * Real.sin ((1/2) * (lon_s - lon_u))))
    linarith
  · have := Real.arcsin_le_pi_div_two (Real.sqrt (Real.sin ((1/2) * (lat_s - lat_u)) *
      Real.sin ((1/2) * (lat_s - lat_u)) + Real.cos lat_s * Real.cos lat_u *
        Real.sin ((1/2) * (lon_s - lon_u)) * Real.sin ((1/2) * (lon_s - lon_u))))
    linarith

/-- Witness for C8 at lat_u = lat_s = 0, lon_u = lon_s = 0. -/
theorem step_1_total_witness :
    (-(π/2) ≤ (0:ℝ) ∧ (0:ℝ) ≤ π/2) ∧
    (∃ θ ψ, step_1 0 0 0 0 = .ok (θ, ψ) ∧ 0 ≤ θ ∧ θ ≤ π) :=
  ⟨⟨by linarith [Real.pi_pos], by linarith [Real.pi_pos]⟩,
    step_1_total 0 0 0 0 (by linarith [Real.pi_pos]) (by linarith [Real.pi_pos])
      (by linarith [Real.pi_pos]) (by linarith [Real.pi_pos])⟩

/-! ## Claim C10: the position resolver is total -/

/-- Helper: the asin argument of step_4 is bounded by 1 in absolute value
whenever the station latitude is in [-pi/2, pi/2] and the angular distance
is in [0, pi], for an arbitrary real azimuth. -/
lemma asin_arg_abs_le_one {lat_u theta ψ : ℝ} (h1 : -(π/2) ≤ lat_u) (h2 : lat_u ≤ π/2)
    (h3 : 0 ≤ theta) (h4 : theta ≤ π) :
    |Real.sin lat_u * Real.cos theta + Real.cos lat_u * Real.sin theta * Real.cos ψ| ≤ 1 := by
  have hcu : 0 ≤ Real.cos lat_u := Real.cos_nonneg_of_mem_Icc ⟨h1, h2⟩
  have hst : 0 ≤ Real.sin theta := Real.sin_nonneg_of_nonneg_of_le_pi h3 h4
  have hub : Real.sin lat_u * Real.cos theta + Real.cos lat_u * Real.sin theta * Real.cos ψ ≤
      Real.sin (lat_u + theta) := by
    rw [Real.sin_add]
    nlinarith [Real.cos_le_one ψ, mul_nonneg hcu hst]
  have hlb : Real.sin (lat_u - theta) ≤
      Real.sin lat_u * Real.cos theta + Real.cos lat_u * Real.sin theta * Real.cos ψ := by
    rw [Real.sin_sub]
    nlinarith [Real.neg_one_le_cos ψ, mul_nonneg hcu hst]
  rw [abs_le]
  exact ⟨by linarith [Real.neg_one_le_sin (lat_u - theta)],
    by linarith [Real.sin_le_one (lat_u + theta)]⟩

/-- Claim C10: for lat_u in [-pi/2, pi/2] and theta_ua in [0, pi] and
arbitrary real beta_u and psi_su, the asin argument of step_4 lies in
[-1, 1] for every azimuth, and step_4 returns a coordinate pair (no domain
error), for either value of the south flag. -/
theorem step_4_total (ac_south : Bool) (lat_u lon_u beta_u psi_su theta_ua : ℝ)
    (h1 : -(π/2) ≤ lat_u) (h2 : lat_u ≤ π/2) (h3 : 0 ≤ theta_ua) (h4 : theta_ua ≤ π) :
    (∀ ψ : ℝ, |Real.sin lat_u * Real.cos theta_ua +
      Real.cos lat_u * Real.sin theta_ua * Real.cos ψ| ≤ 1) ∧
    ∃ p, step_4 ac_south lat_u lon_u beta_u psi_su theta_ua = .ok p := by
  refine ⟨fun ψ => asin_arg_abs_le_one h1 h2 h3 h4, ?_⟩
  have heq : step_4 ac_south lat_u lon_u beta_u psi_su theta_ua = .ok
      (Real.arcsin (Real.sin lat_u * Real.cos theta_ua +
        Real.cos lat_u * Real.sin theta_ua *
          Real.cos (if ac_south then psi_su + beta_u else psi_su - beta_u)),
      atan2 (Real.sin (if ac_south then psi_su + beta_u else psi_su - beta_u) *
          Real.sin theta_ua)
        (Real.cos lat_u * Real.cos theta_ua -
          Real.sin lat_u * Real.sin theta_ua *
            Real.cos (if ac_south then psi_su + beta_u else psi_su - beta_u)) + lon_u) := by
    unfold step_4
    rw [if_neg (not_lt.mpr (asin_arg_abs_le_one h1 h2 h3 h4))]
  exact ⟨_, heq⟩

/-- Witness for C10 at lat_u = 0, theta_ua = 0, beta_u = psi_su = lon_u = 0,
south = false. -/
theorem step_4_total_witness :
    (-(π/2) ≤ (0:ℝ) ∧ (0:ℝ) ≤ π/2 ∧ (0:ℝ) ≤ 0 ∧ (0:ℝ) ≤ π) ∧
    ((∀ ψ : ℝ, |Real.sin 0 * Real.cos 0 + Real.cos 0 * Real.sin 0 * Real.cos ψ| ≤ 1) ∧
      ∃ p, step_4 false 0 0 0 0 0 = .ok p) :=
  ⟨⟨by linarith [Real.pi_pos], by linarith [Real.pi_pos], le_refl 0,
      le_of_lt Real.pi_pos⟩,
    step_4_total false 0 0 0 0 0 (by linarith [Real.pi_pos]) (by linarith [Real.pi_pos])
      (le_refl 0) (le_of_lt Real.pi_pos)⟩

/-! ## Claim C9: output ranges of the position resolver -/

/-- Helper: the atan2 result lies in (-pi, pi]. -/
lemma atan2_mem_Ioc (y x : ℝ) : -π < atan2 y x ∧ atan2 y x ≤ π := by
  have h := Complex.arg_mem_Ioc (⟨x, y⟩ : ℂ)
  exact ⟨h.1, h.2⟩

/-- Claim C9 (amended): under the claim's input ranges, each of the two
step_4 positions has latitude in [-pi/2, pi/2]; its longitude, however, is
lon_u + atan2(...) with no normalisation, so it is only guaranteed to lie
in (-2*pi, 2*pi], not in (-pi, pi] as claimed. -/
theorem step_4_range (ac_south : Bool) (lat_u lon_u beta_u psi_su theta_ua : ℝ)
    (hl1 : -(π/2) ≤ lat_u) (hl2 : lat_u ≤ π/2) (hlon1 : -π < lon_u) (hlon2 : lon_u ≤ π)
    (hb1 : 0 ≤ beta_u) (hb2 : beta_u ≤ π) (hp1 : 0 ≤ psi_su) (hp2 : psi_su ≤ π)
    (ht1 : 0 ≤ theta_ua) (ht2 : theta_ua ≤ π) :
    ∃ la lo, step_4 ac_south lat_u lon_u beta_u psi_su theta_ua = .ok (la, lo) ∧
      -(π/2) ≤ la ∧ la ≤ π/2 ∧ -(2*π) < lo ∧ lo ≤ 2*π := by
  have heq : step_4 ac_south lat_u lon_u beta_u psi_su theta_ua = .ok
      (Real.arcsin (Real.sin lat_u * Real.cos theta_ua +
        Real.cos lat_u * Real.sin theta_ua *
          Real.cos (if ac_south then psi_su + beta_u else psi_su - beta_u)),
      atan2 (Real.sin (if ac_south then psi_su + beta_u else psi_su - beta_u) *
          Real.sin theta_ua)
        (Real.cos lat_u * Real.cos theta_ua -
          Real.sin lat_u * Real.sin theta_ua *
            Real.cos (if ac_south then psi_su + beta_u else psi_su - beta_u)) + lon_u) := by
    unfold step_4
    rw [if_neg (not_lt.mpr (asin_arg_abs_le_one hl1 hl2 ht1 ht2))]
  refine ⟨_, _, heq, Real.neg_pi_div_two_le_arcsin _, Real.arcsin_le_pi_div_two _, ?_, ?_⟩
  · have h := (atan2_mem_Ioc (Real.sin (if ac_south then psi_su + beta_u
      else psi_su - beta_u) * Real.sin theta_ua)
      (Real.cos lat_u * Real.cos theta_ua - Real.sin lat_u * Real.sin theta_ua *
        Real.cos (if ac_south then psi_su + beta_u else psi_su - beta_u))).1
    linarith
  · have h := (atan2_mem_Ioc (Real.sin (if ac_south then psi_su + beta_u
      else psi_su - beta_u) * Real.sin theta_ua)
      (Real.cos lat_u * Real.cos theta_ua - Real.sin lat_u * Real.sin theta_ua *
        Real.cos (if ac_south then psi_su + beta_u else psi_su - beta_u))).2
    linarith

/-- Witness for C9 (amended) at lat_u = 0, lon_u = 0, beta_u = 0,
psi_su = 0, theta_ua = 0, south = false. -/
theorem step_4_range_witness :
    (-(π/2) ≤ (0:ℝ) ∧ (0:ℝ) ≤ π/2 ∧ -π < (0:ℝ) ∧ (0:ℝ) ≤ π) ∧
    (∃ la lo, step_4 false 0 0 0 0 0 = .ok (la, lo) ∧
      -(π/2) ≤ la ∧ la ≤ π/2 ∧ -(2*π) < lo ∧ lo ≤ 2*π) :=
  ⟨⟨by linarith [Real.pi_pos], by linarith [Real.pi_pos], by linarith [Real.pi_pos],
      by linarith [Real.pi_pos]⟩,
    step_4_range false 0 0 0 0 0 (by linarith [Real.pi_pos]) (by linarith [Real.pi_pos])
      (by linarith [Real.pi_pos]) (by linarith [Real.pi_pos]) (le_refl 0)
      (le_of_lt Real.pi_pos) (le_refl 0) (le_of_lt Real.pi_pos) (le_refl 0)
      (le_of_lt Real.pi_pos)⟩

/-- Counterexample for C9 as stated: station at latitude 0 and longitude pi
(a legal input, pi lies in (-pi, pi]), with beta_u = 0, psi_su = pi/2,
theta_ua = pi/2 and south = false.  step_4 returns longitude
pi/2 + pi = 3*pi/2, which is outside (-pi, pi]. -/
theorem step_4_range_cex :
    (-(π/2) ≤ (0:ℝ) ∧ (0:ℝ) ≤ π/2 ∧ -π < π ∧ π ≤ π ∧
      (0:ℝ) ≤ 0 ∧ (0:ℝ) ≤ π ∧ 0 ≤ π/2 ∧ π/2 ≤ π) ∧
    step_4 false 0 π 0 (π/2) (π/2) = .ok (0, π/2 + π) ∧ ¬ (π/2 + π ≤ π) := by
  have hpi := Real.pi_pos
  refine ⟨⟨by linarith, by linarith, by linarith, le_refl π, le_refl 0, by linarith,
    by linarith, by linarith⟩, ?_, by linarith⟩
  have hif : (if false = true then π/2 + 0 else π/2 - 0) = π/2 := by norm_num
  unfold step_4
  rw [if_neg ?_]
  · rw [hif]
    rw [Real.sin_zero, Real.cos_zero, Real.sin_pi_div_two, Real.cos_pi_div_two]
    rw [show (0:ℝ) * 0 + 1 * 1 * 0 = 0 by ring, Real.arcsin_zero]
    rw [show (1:ℝ) * 1 = 1 by ring, show (1:ℝ) * 0 - 0 * 1 * 0 = 0 by ring]
    rw [show atan2 1 0 = π/2 from ?_]
    · unfold atan2
      rw [show (⟨0, 1⟩ : ℂ) = Complex.I by apply Complex.ext <;> simp]
      exact Complex.arg_I
  · rw [hif]
    rw [Real.sin_zero, Real.cos_zero, Real.sin_pi_div_two, Real.cos_pi_div_two]
    rw [show (0:ℝ) * 0 + 1 * 1 * 0 = 0 by ring]
    rw [abs_zero]
    norm_num

/-! ## Shared spherical-trigonometry helpers for C5 and C3 -/

/-- Helper: Pythagorean-style identity behind the bearing decomposition:
the squared sine of a great-circle leg splits into the squared components
of the bearing formula. -/
lemma alg_PQD (x X y Y c s : ℝ) (h1 : x^2 + X^2 = 1) (h2 : y^2 + Y^2 = 1)
    (h3 : s^2 + c^2 = 1) :
    (Y*s)^2 + (y*X - Y*x*c)^2 = 1 - (x*y + X*Y*c)^2 := by
  linear_combination Y^2*h3 + (y^2 + Y^2*c^2)*h1 + h2

/-- Helper: recovering the target sine of latitude from the projection
components. -/
lemma alg_lat (x X y Y c : ℝ) (h1 : x^2 + X^2 = 1) :
    x*(x*y + X*Y*c) + X*(y*X - Y*x*c) = y := by
  linear_combination y*h1

/-- Helper: recovering the target longitude cosine component from the
projection components. -/
lemma alg_lon (x X y Y c : ℝ) (h1 : x^2 + X^2 = 1) :
    X*(x*y + X*Y*c) - x*(y*X - Y*x*c) = Y*c := by
  linear_combination Y*c*h1

/-- Helper: the cosine of the atan2 angle times the vector length gives
back the x component (also at the origin, where both sides vanish). -/
lemma atan2_cos_mul (y x : ℝ) :
    Real.cos (atan2 y x) * Real.sqrt (x^2 + y^2) = x := by
  by_cases hz : (⟨x, y⟩ : ℂ) = 0
  · have hx : x = 0 := by have := congrArg Complex.re hz; simpa using this
    have hy : y = 0 := by have := congrArg Complex.im hz; simpa using this
    simp [hx, hy]
  · have habs : Complex.abs ⟨x, y⟩ = Real.sqrt (x^2 + y^2) := by
      rw [Complex.abs_apply, Complex.normSq_mk]; ring_nf
    have hpos : 0 < Complex.abs ⟨x, y⟩ := Complex.abs.pos hz
    have hc := Complex.cos_arg hz
    unfold atan2
    rw [hc, ← habs]
    field_simp

/-- Helper: the sine of the atan2 angle times the vector length gives back
the y component. -/
lemma atan2_sin_mul (y x : ℝ) :
    Real.sin (atan2 y x) * Real.sqrt (x^2 + y^2) = y := by
  by_cases hz : (⟨x, y⟩ : ℂ) = 0
  · have hx : x = 0 := by have := congrArg Complex.re hz; simpa using this
    have hy : y = 0 := by have := congrArg Complex.im hz; simpa using this
    simp [hx, hy]
  · have habs : Complex.abs ⟨x, y⟩ = Real.sqrt (x^2 + y^2) := by
      rw [Complex.abs_apply, Complex.normSq_mk]; ring_nf
    have hpos : 0 < Complex.abs ⟨x, y⟩ := Complex.abs.pos hz
    have hs := Complex.sin_arg (⟨x, y⟩ : ℂ)
    unfold atan2
    rw [hs, ← habs]
    field_simp

/-- Helper: half-angle square written as a plain product, as in step_1. -/
lemma sin_half_mul_self (v : ℝ) :
    Real.sin ((1/2)*v) * Real.sin ((1/2)*v) = 1/2 - Real.cos v / 2 := by
  have h := Real.sin_sq_eq_half_sub ((1/2)*v)
  rw [show 2*((1/2)*v) = v by ring] at h
  linear_combination h

/-- Helper: characterisation of a successful step_1 run: if the haversine
expression equals the squared sine of half a target angle t in [0, pi],
then step_1 returns t (and the azimuth formula value). -/
lemma step_1_eq_ok_of (lat_u lon_u lat_s lon_s t p : ℝ)
    (hcarg : Real.sin ((1/2) * (lat_s - lat_u)) * Real.sin ((1/2) * (lat_s - lat_u)) +
      Real.cos lat_s * Real.cos lat_u *
        Real.sin ((1/2) * (lon_s - lon_u)) * Real.sin ((1/2) * (lon_s - lon_u)) =
      Real.sin ((1/2) * t) ^ 2)
    (ht1 : 0 ≤ t) (ht2 : t ≤ π)
    (hp : atan2 (Real.cos lat_s * Real.sin (lon_s - lon_u))
      (Real.sin lat_s * Real.cos lat_u -
        Real.cos lat_s * Real.sin lat_u * Real.cos (lon_s - lon_u)) = p) :
    step_1 lat_u lon_u lat_s lon_s = .ok (t, p) := by
  have hpi := Real.pi_pos
  have hshalf : 0 ≤ Real.sin ((1/2)*t) :=
    Real.sin_nonneg_of_nonneg_of_le_pi (by linarith) (by linarith)
  have hsqrt : Real.sqrt (Real.sin ((1/2) * (lat_s - lat_u)) *
      Real.sin ((1/2) * (lat_s - lat_u)) + Real.cos lat_s * Real.cos lat_u *
        Real.sin ((1/2) * (lon_s - lon_u)) * Real.sin ((1/2) * (lon_s - lon_u))) =
      Real.sin ((1/2)*t) := by
    rw [hcarg, Real.sqrt_sq hshalf]
  have h0 : ¬ (Real.sin ((1/2) * (lat_s - lat_u)) * Real.sin ((1/2) * (lat_s - lat_u)) +
      Real.cos lat_s * Real.cos lat_u *
        Real.sin ((1/2) * (lon_s - lon_u)) * Real.sin ((1/2) * (lon_s - lon_u)) < 0) := by
    rw [hcarg]; exact not_lt.mpr (sq_nonneg _)
  have hg : ¬ (1 < |Real.sqrt (Real.sin ((1/2) * (lat_s - lat_u)) *
      Real.sin ((1/2) * (lat_s - lat_u)) + Real.cos lat_s * Real.cos lat_u *
        Real.sin ((1/2) * (lon_s - lon_u)) * Real.sin ((1/2) * (lon_s - lon_u)))|) := by
    rw [hsqrt, abs_of_nonneg hshalf]
    exact not_lt.mpr (Real.sin_le_one _)
  unfold step_1
  rw [if_neg h0, if_neg hg, hsqrt, hp]
  have harc : Real.arcsin (Real.sin ((1/2)*t)) = (1/2)*t :=
    Real.arcsin_sin (by linarith) (by linarith)
  rw [harc, show 2*((1/2)*t) = t by ring]

/-- Helper: the haversine expression of step_1, evaluated at the point
step_4 projects to (latitude arcsin M, relative longitude atan2 P Q),
recovers the squared sine of half the projected distance theta. -/
lemma haversine_forward (lu theta ψ M P Q : ℝ)
    (hM_def : M = Real.sin lu * Real.cos theta + Real.cos lu * Real.sin theta * Real.cos ψ)
    (hP : P = Real.sin ψ * Real.sin theta)
    (hQ : Q = Real.cos lu * Real.cos theta - Real.sin lu * Real.sin theta * Real.cos ψ)
    (hM1 : -1 ≤ M) (hM2 : M ≤ 1) :
    Real.sin ((1/2) * (Real.arcsin M - lu)) * Real.sin ((1/2) * (Real.arcsin M - lu)) +
      Real.cos (Real.arcsin M) * Real.cos lu *
        Real.sin ((1/2) * atan2 P Q) * Real.sin ((1/2) * atan2 P Q) =
      Real.sin ((1/2) * theta) ^ 2 := by
  have hPQ : Q^2 + P^2 = 1 - M^2 := by
    rw [hP, hQ, hM_def]
    linear_combination alg_PQD (Real.sin lu) (Real.cos lu) (Real.cos theta) (Real.sin theta)
      (Real.cos ψ) (Real.sin ψ) (Real.sin_sq_add_cos_sq lu)
      (Real.cos_sq_add_sin_sq theta) (Real.sin_sq_add_cos_sq ψ)
  have e45 : Real.cos (Real.arcsin M) * Real.cos (atan2 P Q) = Q := by
    rw [Real.cos_arcsin, show (1:ℝ) - M^2 = Q^2 + P^2 by linarith]
    linear_combination atan2_cos_mul P Q
  have e1 : Real.sin ((1/2) * (Real.arcsin M - lu)) * Real.sin ((1/2) * (Real.arcsin M - lu)) =
      1/2 - Real.cos (Real.arcsin M - lu) / 2 := sin_half_mul_self _
  have e3 : Real.cos (Real.arcsin M - lu) =
      Real.cos (Real.arcsin M) * Real.cos lu + M * Real.sin lu := by
    rw [Real.cos_sub, Real.sin_arcsin hM1 hM2]
  have e2 : Real.sin ((1/2) * atan2 P Q) * Real.sin ((1/2) * atan2 P Q) =
      1/2 - Real.cos (atan2 P Q) / 2 := sin_half_mul_self _
  have e6 : Real.sin lu * M + Real.cos lu * Q = Real.cos theta := by
    rw [hM_def, hQ]
    linear_combination alg_lat (Real.sin lu) (Real.cos lu) (Real.cos theta) (Real.sin theta)
      (Real.cos ψ) (Real.sin_sq_add_cos_sq lu)
  have e7 : Real.sin ((1/2) * theta) ^ 2 = 1/2 - Real.cos theta / 2 := by
    have h := Real.sin_sq_eq_half_sub ((1/2)*theta)
    rw [show 2*((1/2)*theta) = theta by ring] at h
    exact h
  linear_combination e1 + Real.cos (Real.arcsin M) * Real.cos lu * e2 - e7 - e3/2 -
    Real.cos lu / 2 * e45 - e6/2

/-! ## Claim C5: both mirrored positions are at distance theta_ua from U -/

/-- Helper: projecting from a station along any azimuth by a distance
theta in [0, pi] (the step_4 formulas) and then measuring the haversine
distance back to the station (the step_1 formula) returns exactly theta. -/
lemma project_then_distance (lu lon_u ψa theta : ℝ)
    (hl1 : -(π/2) ≤ lu) (hl2 : lu ≤ π/2) (ht1 : 0 ≤ theta) (ht2 : theta ≤ π) :
    ∃ ψ2, step_1 lu lon_u
      (Real.arcsin (Real.sin lu * Real.cos theta + Real.cos lu * Real.sin theta * Real.cos ψa))
      (atan2 (Real.sin ψa * Real.sin theta)
        (Real.cos lu * Real.cos theta - Real.sin lu * Real.sin theta * Real.cos ψa) + lon_u) =
      .ok (theta, ψ2) := by
  have hM : |Real.sin lu * Real.cos theta + Real.cos lu * Real.sin theta * Real.cos ψa| ≤ 1 :=
    asin_arg_abs_le_one hl1 hl2 ht1 ht2
  have hcarg : Real.sin ((1/2) * (Real.arcsin (Real.sin lu * Real.cos theta +
        Real.cos lu * Real.sin theta * Real.cos ψa) - lu)) *
      Real.sin ((1/2) * (Real.arcsin (Real.sin lu * Real.cos theta +
        Real.cos lu * Real.sin theta * Real.cos ψa) - lu)) +
      Real.cos (Real.arcsin (Real.sin lu * Real.cos theta +
        Real.cos lu * Real.sin theta * Real.cos ψa)) * Real.cos lu *
        Real.sin ((1/2) * (atan2 (Real.sin ψa * Real.sin theta)
          (Real.cos lu * Real.cos theta - Real.sin lu * Real.sin theta * Real.cos ψa) +
            lon_u - lon_u)) *
        Real.sin ((1/2) * (atan2 (Real.sin ψa * Real.sin theta)
          (Real.cos lu * Real.cos theta - Real.sin lu * Real.sin theta * Real.cos ψa) +
            lon_u - lon_u)) =
      Real.sin ((1/2) * theta) ^ 2 := by
    rw [show atan2 (Real.sin ψa * Real.sin theta)
        (Real.cos lu * Real.cos theta - Real.sin lu * Real.sin theta * Real.cos ψa) +
          lon_u - lon_u =
      atan2 (Real.sin ψa * Real.sin theta)
        (Real.cos lu * Real.cos theta - Real.sin lu * Real.sin theta * Real.cos ψa) by ring]
    exact haversine_forward lu theta ψa _ _ _ rfl rfl rfl (abs_le.mp hM).1 (abs_le.mp hM).2
  exact ⟨_, step_1_eq_ok_of _ _ _ _ _ _ hcarg ht1 ht2 rfl⟩

/-- Claim C5: for either value of the south flag, the position returned by
step_4 lies at exactly the angular distance theta_ua from station U when
that distance is back-computed by the haversine formula of step_1. -/
theorem step_4_mirror_distance (ac_south : Bool) (lat_u lon_u beta_u psi_su theta_ua : ℝ)
    (hl1 : -(π/2) ≤ lat_u) (hl2 : lat_u ≤ π/2)
    (hb1 : 0 ≤ beta_u) (hb2 : beta_u ≤ π) (hp1 : 0 ≤ psi_su) (hp2 : psi_su ≤ π)
    (ht1 : 0 ≤ theta_ua) (ht2 : theta_ua ≤ π) :
    ∃ la lo ψ, step_4 ac_south lat_u lon_u beta_u psi_su theta_ua = .ok (la, lo) ∧
      step_1 lat_u lon_u la lo = .ok (theta_ua, ψ) := by
  have hM : |Real.sin lat_u * Real.cos theta_ua + Real.cos lat_u * Real.sin theta_ua *
      Real.cos (if ac_south then psi_su + beta_u else psi_su - beta_u)| ≤ 1 :=
    asin_arg_abs_le_one hl1 hl2 ht1 ht2
  have heq4 : step_4 ac_south lat_u lon_u beta_u psi_su theta_ua = .ok
      (Real.arcsin (Real.sin lat_u * Real.cos theta_ua +
        Real.cos lat_u * Real.sin theta_ua *
          Real.cos (if ac_south then psi_su + beta_u else psi_su - beta_u)),
      atan2 (Real.sin (if ac_south then psi_su + beta_u else psi_su - beta_u) *
          Real.sin theta_ua)
        (Real.cos lat_u * Real.cos theta_ua -
          Real.sin lat_u * Real.sin theta_ua *
            Real.cos (if ac_south then psi_su + beta_u else psi_su - beta_u)) + lon_u) := by
    unfold step_4
    rw [if_neg (not_lt.mpr hM)]
  obtain ⟨ψ2, h1⟩ := project_then_distance lat_u lon_u
    (if ac_south then psi_su + beta_u else psi_su - beta_u) theta_ua hl1 hl2 ht1 ht2
  exact ⟨_, _, ψ2, heq4, h1⟩

/-- Witness for C5 at lat_u = lon_u = 0, beta_u = psi_su = 0, theta_ua = 0,
south = false. -/
theorem step_4_mirror_distance_witness :
    (-(π/2) ≤ (0:ℝ) ∧ (0:ℝ) ≤ π/2 ∧ (0:ℝ) ≤ 0 ∧ (0:ℝ) ≤ π) ∧
    (∃ la lo ψ, step_4 false 0 0 0 0 0 = .ok (la, lo) ∧
      step_1 0 0 la lo = .ok (0, ψ)) :=
  ⟨⟨by linarith [Real.pi_pos], by linarith [Real.pi_pos], le_refl 0,
      le_of_lt Real.pi_pos⟩,
    step_4_mirror_distance false 0 0 0 0 0 (by linarith [Real.pi_pos])
      (by linarith [Real.pi_pos]) (le_refl 0) (le_of_lt Real.pi_pos)
      (le_refl 0) (le_of_lt Real.pi_pos) (le_refl 0) (le_of_lt Real.pi_pos)⟩

/-! ## Infrastructure for the round-trip claim C3 -/

/-- Helper: inversion of a successful step_1 run into its guard facts and
result formulas. -/
lemma step_1_ok_inv (lat_u lon_u lat_s lon_s t p : ℝ)
    (h : step_1 lat_u lon_u lat_s lon_s = .ok (t, p)) :
    (0 ≤ Real.sin ((1/2) * (lat_s - lat_u)) * Real.sin ((1/2) * (lat_s - lat_u)) +
      Real.cos lat_s * Real.cos lat_u *
        Real.sin ((1/2) * (lon_s - lon_u)) * Real.sin ((1/2) * (lon_s - lon_u))) ∧
    (Real.sqrt (Real.sin ((1/2) * (lat_s - lat_u)) * Real.sin ((1/2) * (lat_s - lat_u)) +
      Real.cos lat_s * Real.cos lat_u *
        Real.sin ((1/2) * (lon_s - lon_u)) * Real.sin ((1/2) * (lon_s - lon_u))) ≤ 1) ∧
    t = 2 * Real.arcsin (Real.sqrt (Real.sin ((1/2) * (lat_s - lat_u)) *
      Real.sin ((1/2) * (lat_s - lat_u)) + Real.cos lat_s * Real.cos lat_u *
        Real.sin ((1/2) * (lon_s - lon_u)) * Real.sin ((1/2) * (lon_s - lon_u)))) ∧
    p = atan2 (Real.cos lat_s * Real.sin (lon_s - lon_u))
      (Real.sin lat_s * Real.cos lat_u -
        Real.cos lat_s * Real.sin lat_u * Real.cos (lon_s - lon_u)) := by
  unfold step_1 at h
  by_cases h0 : Real.sin ((1/2) * (lat_s - lat_u)) * Real.sin ((1/2) * (lat_s - lat_u)) +
      Real.cos lat_s * Real.cos lat_u *
        Real.sin ((1/2) * (lon_s - lon_u)) * Real.sin ((1/2) * (lon_s - lon_u)) < 0
  · rw [if_pos h0] at h
    exact absurd h (by simp)
  · rw [if_neg h0] at h
    by_cases hg : 1 < |Real.sqrt (Real.sin ((1/2) * (lat_s - lat_u)) *
        Real.sin ((1/2) * (lat_s - lat_u)) + Real.cos lat_s * Real.cos lat_u *
          Real.sin ((1/2) * (lon_s - lon_u)) * Real.sin ((1/2) * (lon_s - lon_u)))|
    · rw [if_pos hg] at h
      exact absurd h (by simp)
    · rw [if_neg hg] at h
      rw [abs_of_nonneg (Real.sqrt_nonneg _)] at hg
      have hpair := h
      rw [Except.ok.injEq, Prod.mk.injEq] at hpair
      exact ⟨not_lt.mp h0, not_lt.mp hg, hpair.1.symm, hpair.2.symm⟩

/-- Helper: cosine of a step_1-style distance from the haversine value. -/
lemma cos_two_arcsin_sqrt {h : ℝ} (h0 : 0 ≤ h) (h1 : h ≤ 1) :
    Real.cos (2 * Real.arcsin (Real.sqrt h)) = 1 - 2*h := by
  have hs : Real.sin (Real.arcsin (Real.sqrt h)) = Real.sqrt h :=
    Real.sin_arcsin (by linarith [Real.sqrt_nonneg h]) (Real.sqrt_le_one.mpr h1)
  have hhalf := Real.sin_sq_eq_half_sub (Real.arcsin (Real.sqrt h))
  rw [hs, Real.sq_sqrt h0] at hhalf
  linarith

/-- Helper: the haversine expression of step_1 as a spherical dot product. -/
lemma carg_eq (lat_u lon_u lat_s lon_s : ℝ) :
    Real.sin ((1/2) * (lat_s - lat_u)) * Real.sin ((1/2) * (lat_s - lat_u)) +
      Real.cos lat_s * Real.cos lat_u *
        Real.sin ((1/2) * (lon_s - lon_u)) * Real.sin ((1/2) * (lon_s - lon_u)) =
    (1 - (Real.sin lat_u * Real.sin lat_s +
      Real.cos lat_u * Real.cos lat_s * Real.cos (lon_s - lon_u))) / 2 := by
  linear_combination sin_half_mul_self (lat_s - lat_u) +
    Real.cos lat_s * Real.cos lat_u * sin_half_mul_self (lon_s - lon_u) -
    (Real.cos_sub lat_s lat_u) / 2

/-- Helper: full characterisation of a successful step_1 run: the returned
distance t lies in [0, pi], its cosine is the spherical dot product of the
two points, its sine is the length of the bearing vector, and the returned
azimuth is the atan2 of that bearing vector. -/
lemma step_1_ok_spec (lat_u lon_u lat_s lon_s t p : ℝ)
    (h : step_1 lat_u lon_u lat_s lon_s = .ok (t, p)) :
    0 ≤ t ∧ t ≤ π ∧
    Real.cos t = Real.sin lat_u * Real.sin lat_s +
      Real.cos lat_u * Real.cos lat_s * Real.cos (lon_s - lon_u) ∧
    Real.sin t = Real.sqrt ((Real.sin lat_s * Real.cos lat_u -
        Real.cos lat_s * Real.sin lat_u * Real.cos (lon_s - lon_u))^2 +
      (Real.cos lat_s * Real.sin (lon_s - lon_u))^2) ∧
    p = atan2 (Real.cos lat_s * Real.sin (lon_s - lon_u))
      (Real.sin lat_s * Real.cos lat_u -
        Real.cos lat_s * Real.sin lat_u * Real.cos (lon_s - lon_u)) := by
  obtain ⟨h0, hle, ht, hp⟩ := step_1_ok_inv lat_u lon_u lat_s lon_s t p h
  have hcarg1 : Real.sin ((1/2) * (lat_s - lat_u)) * Real.sin ((1/2) * (lat_s - lat_u)) +
      Real.cos lat_s * Real.cos lat_u *
        Real.sin ((1/2) * (lon_s - lon_u)) * Real.sin ((1/2) * (lon_s - lon_u)) ≤ 1 := by
    by_contra hcon
    push_neg at hcon
    have h2 : (1:ℝ) < Real.sqrt (Real.sin ((1/2) * (lat_s - lat_u)) *
        Real.sin ((1/2) * (lat_s - lat_u)) + Real.cos lat_s * Real.cos lat_u *
          Real.sin ((1/2) * (lon_s - lon_u)) * Real.sin ((1/2) * (lon_s - lon_u))) :=
      (Real.lt_sqrt (by norm_num)).mpr (by nlinarith)
    linarith
  have harc0 : 0 ≤ Real.arcsin (Real.sqrt (Real.sin ((1/2) * (lat_s - lat_u)) *
      Real.sin ((1/2) * (lat_s - lat_u)) + Real.cos lat_s * Real.cos lat_u *
        Real.sin ((1/2) * (lon_s - lon_u)) * Real.sin ((1/2) * (lon_s - lon_u)))) :=
    Real.arcsin_nonneg.mpr (Real.sqrt_nonneg _)
  have harc2 := Real.arcsin_le_pi_div_two (Real.sqrt (Real.sin ((1/2) * (lat_s - lat_u)) *
      Real.sin ((1/2) * (lat_s - lat_u)) + Real.cos lat_s * Real.cos lat_u *
        Real.sin ((1/2) * (lon_s - lon_u)) * Real.sin ((1/2) * (lon_s - lon_u))))
  have ht0 : 0 ≤ t := by rw [ht]; linarith
  have htpi : t ≤ π := by rw [ht]; linarith
  have hcos : Real.cos t = Real.sin lat_u * Real.sin lat_s +
      Real.cos lat_u * Real.cos lat_s * Real.cos (lon_s - lon_u) := by
    rw [ht, cos_two_arcsin_sqrt h0 hcarg1, carg_eq]
    ring
  have hsin0 : 0 ≤ Real.sin t := Real.sin_nonneg_of_nonneg_of_le_pi ht0 htpi
  have hPQ : (Real.sin lat_s * Real.cos lat_u -
      Real.cos lat_s * Real.sin lat_u * Real.cos (lon_s - lon_u))^2 +
      (Real.cos lat_s * Real.sin (lon_s - lon_u))^2 =
      1 - (Real.sin lat_u * Real.sin lat_s +
        Real.cos lat_u * Real.cos lat_s * Real.cos (lon_s - lon_u))^2 := by
    linear_combination alg_PQD (Real.sin lat_u) (Real.cos lat_u) (Real.sin lat_s)
      (Real.cos lat_s) (Real.cos (lon_s - lon_u)) (Real.sin (lon_s - lon_u))
      (Real.sin_sq_add_cos_sq lat_u) (Real.sin_sq_add_cos_sq lat_s)
      (Real.sin_sq_add_cos_sq (lon_s - lon_u))
  have hsin : Real.sin t = Real.sqrt ((Real.sin lat_s * Real.cos lat_u -
      Real.cos lat_s * Real.sin lat_u * Real.cos (lon_s - lon_u))^2 +
      (Real.cos lat_s * Real.sin (lon_s - lon_u))^2) := by
    have hsq : Real.sin t ^ 2 = (Real.sin lat_s * Real.cos lat_u -
        Real.cos lat_s * Real.sin lat_u * Real.cos (lon_s - lon_u))^2 +
        (Real.cos lat_s * Real.sin (lon_s - lon_u))^2 := by
      rw [hPQ]
      have := Real.sin_sq_add_cos_sq t
      rw [hcos] at this
      linarith
    rw [← hsq, Real.sqrt_sq hsin0]
  exact ⟨ht0, htpi, hcos, hsin, hp⟩

/-- Spherical dot product of two unit vectors given by latitude/longitude:
the cosine of their central angle. -/
noncomputable def dotp (lat1 lon1 lat2 lon2 : ℝ) : ℝ :=
  Real.sin lat1 * Real.sin lat2 + Real.cos lat1 * Real.cos lat2 * Real.cos (lon2 - lon1)

/-- East component of the bearing vector from point 1 to point 2 (the first
atan2 argument of the step_1 azimuth formula). -/
noncomputable def bearY (lat1 lon1 lat2 lon2 : ℝ) : ℝ :=
  Real.cos lat2 * Real.sin (lon2 - lon1)

/-- North component of the bearing vector from point 1 to point 2 (the
second atan2 argument of the step_1 azimuth formula). -/
noncomputable def bearX (lat1 lon1 lat2 lon2 : ℝ) : ℝ :=
  Real.sin lat2 * Real.cos lat1 - Real.cos lat2 * Real.sin lat1 * Real.cos (lon2 - lon1)

/-- Helper: step_1 success characterisation in dot-product form. -/
lemma step_1_ok_spec2 (lat_u lon_u lat_s lon_s t p : ℝ)
    (h : step_1 lat_u lon_u lat_s lon_s = .ok (t, p)) :
    0 ≤ t ∧ t ≤ π ∧
    Real.cos t = dotp lat_u lon_u lat_s lon_s ∧
    Real.sin t = Real.sqrt (bearX lat_u lon_u lat_s lon_s ^2 + bearY lat_u lon_u lat_s lon_s ^2) ∧
    p = atan2 (bearY lat_u lon_u lat_s lon_s) (bearX lat_u lon_u lat_s lon_s) := by
  unfold dotp bearX bearY
  exact step_1_ok_spec lat_u lon_u lat_s lon_s t p h

/-- Helper: the spherical dot product is symmetric. -/
lemma dotp_symm (lat1 lon1 lat2 lon2 : ℝ) :
    dotp lat1 lon1 lat2 lon2 = dotp lat2 lon2 lat1 lon1 := by
  unfold dotp
  rw [show lon1 - lon2 = -(lon2 - lon1) by ring, Real.cos_neg]
  ring

/-- Helper: the bearing vector's squared length is one minus the squared
dot product. -/
lemma bear_norm (lat1 lon1 lat2 lon2 : ℝ) :
    bearX lat1 lon1 lat2 lon2 ^2 + bearY lat1 lon1 lat2 lon2 ^2 =
      1 - dotp lat1 lon1 lat2 lon2 ^2 := by
  unfold dotp bearX bearY
  linear_combination alg_PQD (Real.sin lat1) (Real.cos lat1) (Real.sin lat2)
    (Real.cos lat2) (Real.cos (lon2 - lon1)) (Real.sin (lon2 - lon1))
    (Real.sin_sq_add_cos_sq lat1) (Real.sin_sq_add_cos_sq lat2)
    (Real.sin_sq_add_cos_sq (lon2 - lon1))

/-- Helper: algebraic core of the spherical law of cosines. -/
lemma alg_loc (x X y Y z Z c1 s1 c2 s2 : ℝ) (h1 : x^2 + X^2 = 1) :
    (x*y + X*Y*c1)*(x*z + X*Z*c2) + (y*X - Y*x*c1)*(z*X - Z*x*c2) + (Y*s1)*(Z*s2) =
      y*z + Y*Z*(c1*c2 + s1*s2) := by
  linear_combination (y*z + Y*Z*c1*c2)*h1

/-- Helper: spherical law of cosines in dot-product form: the dot product
of two targets decomposes over a common origin o. -/
lemma dotp_loc (lato lono lat1 lon1 lat2 lon2 : ℝ) :
    dotp lat1 lon1 lat2 lon2 =
      dotp lato lono lat1 lon1 * dotp lato lono lat2 lon2 +
      (bearX lato lono lat1 lon1 * bearX lato lono lat2 lon2 +
        bearY lato lono lat1 lon1 * bearY lato lono lat2 lon2) := by
  unfold dotp bearX bearY
  have h := alg_loc (Real.sin lato) (Real.cos lato) (Real.sin lat1) (Real.cos lat1)
    (Real.sin lat2) (Real.cos lat2) (Real.cos (lon1 - lono)) (Real.sin (lon1 - lono))
    (Real.cos (lon2 - lono)) (Real.sin (lon2 - lono)) (Real.sin_sq_add_cos_sq lato)
  have hc : Real.cos (lon2 - lon1) =
      Real.cos (lon2 - lono) * Real.cos (lon1 - lono) +
        Real.sin (lon2 - lono) * Real.sin (lon1 - lono) := by
    rw [show lon2 - lon1 = (lon2 - lono) - (lon1 - lono) by ring, Real.cos_sub]
  linear_combination Real.cos lat1 * Real.cos lat2 * hc - h

/-- Helper: two-dimensional Cauchy-Schwarz bound for the bearing dot
product. -/
lemma abs_dot_le (q p q2 p2 : ℝ) :
    |q*q2 + p*p2| ≤ Real.sqrt (q^2 + p^2) * Real.sqrt (q2^2 + p2^2) := by
  have h1 : (q*q2 + p*p2)^2 ≤ (q^2 + p^2) * (q2^2 + p2^2) := by
    nlinarith [sq_nonneg (q*p2 - p*q2)]
  have h2 : Real.sqrt (q^2 + p^2) * Real.sqrt (q2^2 + p2^2) =
      Real.sqrt ((q^2 + p^2) * (q2^2 + p2^2)) :=
    (Real.sqrt_mul (by positivity) _).symm
  rw [h2]
  have h3 := Real.sqrt_le_sqrt h1
  rwa [Real.sqrt_sq_eq_abs] at h3

/-- Helper: one of the two mirrored azimuths psi_su plus/minus beta_u
agrees with the target bearing modulo 2*pi, where beta_u is the arccos of
the cosine of the bearing difference. -/
lemma exists_flag (bS bA : ℝ) (hS1 : -π < bS) (hS2 : bS ≤ π) (hA1 : -π < bA) (hA2 : bA ≤ π) :
    ∃ (south : Bool) (k : ℤ),
      (if south then bS + Real.arccos (Real.cos (bA - bS))
        else bS - Real.arccos (Real.cos (bA - bS))) = bA + 2*π*k := by
  have hpi := Real.pi_pos
  by_cases h1 : 0 ≤ bA - bS
  · by_cases h2 : bA - bS ≤ π
    · refine ⟨true, 0, ?_⟩
      rw [if_pos rfl, Real.arccos_cos h1 h2]
      push_cast
      ring
    · push_neg at h2
      have hcosx : Real.cos (bA - bS) = Real.cos (2*π - (bA - bS)) := by
        rw [show 2*π - (bA - bS) = -((bA - bS) + (-1 : ℤ)*(2*π)) by push_cast; ring,
          Real.cos_neg]
        exact (Real.cos_add_int_mul_two_pi _ _).symm
      refine ⟨false, -1, ?_⟩
      rw [if_neg (by simp), hcosx, Real.arccos_cos (by linarith) (by linarith)]
      push_cast
      ring
  · push_neg at h1
    by_cases h2 : -π ≤ bA - bS
    · refine ⟨false, 0, ?_⟩
      have hcosx : Real.cos (bA - bS) = Real.cos (-(bA - bS)) := (Real.cos_neg _).symm
      rw [if_neg (by simp), hcosx, Real.arccos_cos (by linarith) (by linarith)]
      push_cast
      ring
    · push_neg at h2
      have hcosx : Real.cos (bA - bS) = Real.cos (2*π + (bA - bS)) := by
        rw [show 2*π + (bA - bS) = (bA - bS) + (1 : ℤ)*(2*π) by push_cast; ring]
        exact (Real.cos_add_int_mul_two_pi _ _).symm
      refine ⟨true, 1, ?_⟩
      rw [if_pos rfl, hcosx, Real.arccos_cos (by linarith) (by linarith)]
      push_cast
      ring

/-- Helper: atan2 of a positively scaled (sin, cos) pair recovers the angle
up to a multiple of 2*pi. -/
lemma atan2_rot (r θ : ℝ) (hr : 0 < r) :
    ∃ k : ℤ, atan2 (r * Real.sin θ) (r * Real.cos θ) = θ - 2*π*k := by
  have h2pi : (0:ℝ) < 2*π := Real.two_pi_pos
  have hmem : toIocMod h2pi (-π) θ ∈ Set.Ioc (-π) (-π + 2*π) := toIocMod_mem_Ioc h2pi (-π) θ
  have hdef : toIocMod h2pi (-π) θ = θ - toIocDiv h2pi (-π) θ • (2*π) := rfl
  have hcos : Real.cos θ = Real.cos (toIocMod h2pi (-π) θ) := by
    rw [hdef, zsmul_eq_mul, show θ - (toIocDiv h2pi (-π) θ : ℝ)*(2*π) =
      θ + (-(toIocDiv h2pi (-π) θ) : ℤ)*(2*π) by push_cast; ring]
    exact (Real.cos_add_int_mul_two_pi θ _).symm
  have hsin : Real.sin θ = Real.sin (toIocMod h2pi (-π) θ) := by
    rw [hdef, zsmul_eq_mul, show θ - (toIocDiv h2pi (-π) θ : ℝ)*(2*π) =
      θ + (-(toIocDiv h2pi (-π) θ) : ℤ)*(2*π) by push_cast; ring]
    exact (Real.sin_add_int_mul_two_pi θ _).symm
  refine ⟨toIocDiv h2pi (-π) θ, ?_⟩
  have harg : atan2 (r * Real.sin θ) (r * Real.cos θ) = toIocMod h2pi (-π) θ := by
    unfold atan2
    rw [hcos, hsin]
    have hmk : (⟨r * Real.cos (toIocMod h2pi (-π) θ),
        r * Real.sin (toIocMod h2pi (-π) θ)⟩ : ℂ) =
        (r : ℂ) * ⟨Real.cos (toIocMod h2pi (-π) θ), Real.sin (toIocMod h2pi (-π) θ)⟩ := by
      apply Complex.ext <;> simp
    rw [hmk, Complex.arg_real_mul _ hr, Complex.mk_eq_add_mul_I,
      Complex.ofReal_cos, Complex.ofReal_sin]
    exact Complex.arg_cos_add_sin_mul_I ⟨hmem.1, by linarith [hmem.2]⟩
  rw [harg, hdef, zsmul_eq_mul]
  ring

/-! ## Claim C3: the full-pipeline round trip -/

/-- Claim C3 (amended): stations with latitudes in [-pi/2, pi/2] and
longitudes in (-pi, pi], aircraft strictly between the poles; the angular
distances are computed by the forward haversine of step_1 from the
aircraft to each station; the station separation and the aircraft-U
distance are non-degenerate (strictly between 0 and pi, i.e. the stations
are neither coincident nor antipodal and the aircraft is neither at U nor
at its antipode).  Then step_2 returns true, step_3 returns an angle, and
for one of the two south-flag values step_4 reproduces the aircraft
latitude exactly and its longitude up to an integer multiple of 2*pi. -/
theorem pipeline_roundtrip
    (lat_u lon_u lat_s lon_s lat_a lon_a t_ua b_au t_sa b_as t_us psi : ℝ)
    (hu1 : -(π/2) ≤ lat_u) (hu2 : lat_u ≤ π/2)
    (hs1 : -(π/2) ≤ lat_s) (hs2 : lat_s ≤ π/2)
    (ha1 : -(π/2) < lat_a) (ha2 : lat_a < π/2)
    (hlu1 : -π < lon_u) (hlu2 : lon_u ≤ π) (hls1 : -π < lon_s) (hls2 : lon_s ≤ π)
    (hUA : step_1 lat_a lon_a lat_u lon_u = .ok (t_ua, b_au))
    (hSA : step_1 lat_a lon_a lat_s lon_s = .ok (t_sa, b_as))
    (hUS : step_1 lat_u lon_u lat_s lon_s = .ok (t_us, psi))
    (hta : 0 < t_ua) (htb : t_ua < π) (hxa : 0 < t_us) (hxb : t_us < π) :
    step_2 t_us t_ua t_sa = true ∧
    ∃ β, step_3 t_us t_ua t_sa = .ok β ∧
      ∃ (south : Bool) (lo : ℝ) (k : ℤ),
        step_4 south lat_u lon_u β psi t_ua = .ok (lat_a, lo) ∧ lo = lon_a + 2*π*k := by
  obtain ⟨hta0, htapi, hcosAU, hsinAU, hbau⟩ := step_1_ok_spec2 _ _ _ _ _ _ hUA
  obtain ⟨hsa0, hsapi, hcosAS, hsinAS, hbas⟩ := step_1_ok_spec2 _ _ _ _ _ _ hSA
  obtain ⟨hus0, huspi, hcosUS, hsinUS, hpsi⟩ := step_1_ok_spec2 _ _ _ _ _ _ hUS
  have hsinua0 : 0 ≤ Real.sin t_ua := Real.sin_nonneg_of_nonneg_of_le_pi hta0 htapi
  have hsinsa0 : 0 ≤ Real.sin t_sa := Real.sin_nonneg_of_nonneg_of_le_pi hsa0 hsapi
  -- feasibility: law of cosines at the aircraft vertex plus Cauchy-Schwarz
  have hlocA : dotp lat_u lon_u lat_s lon_s =
      Real.cos t_ua * Real.cos t_sa +
      (bearX lat_a lon_a lat_u lon_u * bearX lat_a lon_a lat_s lon_s +
        bearY lat_a lon_a lat_u lon_u * bearY lat_a lon_a lat_s lon_s) := by
    rw [hcosAU, hcosAS]
    exact dotp_loc lat_a lon_a lat_u lon_u lat_s lon_s
  have hdotbound : |bearX lat_a lon_a lat_u lon_u * bearX lat_a lon_a lat_s lon_s +
      bearY lat_a lon_a lat_u lon_u * bearY lat_a lon_a lat_s lon_s| ≤
      Real.sin t_ua * Real.sin t_sa := by
    rw [hsinAU, hsinAS]
    exact abs_dot_le _ _ _ _
  have hub2 : Real.cos t_us ≤ Real.cos (t_ua - t_sa) := by
    rw [Real.cos_sub, hcosUS, hlocA]
    have h := (abs_le.mp hdotbound).2
    linarith
  have hlb2 : Real.cos (t_ua + t_sa) ≤ Real.cos t_us := by
    rw [Real.cos_add, hcosUS, hlocA]
    have h := (abs_le.mp hdotbound).1
    linarith
  have hfeas1 : ¬ (t_ua + t_sa < t_us) := by
    intro hcon
    have h1 : Real.cos t_us < Real.cos (t_ua + t_sa) :=
      (cos_lt_cos_iff_of_mem hus0 (le_of_lt hxb) (by linarith) (by linarith)).mpr hcon
    linarith
  have hfeas2 : ¬ (|t_ua - t_sa| > t_us) := by
    intro hcon
    have habs2 : |t_ua - t_sa| ≤ π := by
      rw [abs_le]; constructor <;> linarith
    have h1 : Real.cos (|t_ua - t_sa|) < Real.cos t_us :=
      (cos_lt_cos_iff_of_mem (abs_nonneg _) habs2 hus0 (le_of_lt hxb)).mpr hcon
    rw [Real.cos_abs] at h1
    linarith
  have hstep2 : step_2 t_us t_ua t_sa = true := by
    unfold step_2
    rw [if_neg hfeas1, if_neg hfeas2]
  -- the triangle solve: the acos argument is the cosine of the bearing gap
  have hsinua_pos : 0 < Real.sin t_ua := Real.sin_pos_of_pos_of_lt_pi hta htb
  have hsinus_pos : 0 < Real.sin t_us := Real.sin_pos_of_pos_of_lt_pi hxa hxb
  have hbpos : 0 < Real.sin t_us * Real.sin t_ua := mul_pos hsinus_pos hsinua_pos
  have hcosUA : Real.cos t_ua = dotp lat_u lon_u lat_a lon_a := by
    rw [hcosAU, dotp_symm]
  have hsinUA : Real.sin t_ua =
      Real.sqrt (bearX lat_u lon_u lat_a lon_a ^2 + bearY lat_u lon_u lat_a lon_a ^2) := by
    rw [hsinAU, bear_norm lat_a lon_a lat_u lon_u, bear_norm lat_u lon_u lat_a lon_a,
      dotp_symm lat_a lon_a lat_u lon_u]
  have hlocU : dotp lat_a lon_a lat_s lon_s =
      Real.cos t_ua * Real.cos t_us +
      (bearX lat_u lon_u lat_a lon_a * bearX lat_u lon_u lat_s lon_s +
        bearY lat_u lon_u lat_a lon_a * bearY lat_u lon_u lat_s lon_s) := by
    rw [hcosUA, hcosUS]
    exact dotp_loc lat_u lon_u lat_a lon_a lat_s lon_s
  have hnum : Real.cos t_sa - Real.cos t_us * Real.cos t_ua =
      bearX lat_u lon_u lat_a lon_a * bearX lat_u lon_u lat_s lon_s +
        bearY lat_u lon_u lat_a lon_a * bearY lat_u lon_u lat_s lon_s := by
    rw [hcosAS]
    linarith [hlocU]
  have hRAc : Real.sin t_ua * Real.cos (atan2 (bearY lat_u lon_u lat_a lon_a)
      (bearX lat_u lon_u lat_a lon_a)) = bearX lat_u lon_u lat_a lon_a := by
    rw [hsinUA]
    linear_combination atan2_cos_mul (bearY lat_u lon_u lat_a lon_a)
      (bearX lat_u lon_u lat_a lon_a)
  have hRAs : Real.sin t_ua * Real.sin (atan2 (bearY lat_u lon_u lat_a lon_a)
      (bearX lat_u lon_u lat_a lon_a)) = bearY lat_u lon_u lat_a lon_a := by
    rw [hsinUA]
    linear_combination atan2_sin_mul (bearY lat_u lon_u lat_a lon_a)
      (bearX lat_u lon_u lat_a lon_a)
  have hRSc : Real.sin t_us * Real.cos (atan2 (bearY lat_u lon_u lat_s lon_s)
      (bearX lat_u lon_u lat_s lon_s)) = bearX lat_u lon_u lat_s lon_s := by
    rw [hsinUS]
    linear_combination atan2_cos_mul (bearY lat_u lon_u lat_s lon_s)
      (bearX lat_u lon_u lat_s lon_s)
  have hRSs : Real.sin t_us * Real.sin (atan2 (bearY lat_u lon_u lat_s lon_s)
      (bearX lat_u lon_u lat_s lon_s)) = bearY lat_u lon_u lat_s lon_s := by
    rw [hsinUS]
    linear_combination atan2_sin_mul (bearY lat_u lon_u lat_s lon_s)
      (bearX lat_u lon_u lat_s lon_s)
  have hargcos : Real.cos t_sa - Real.cos t_us * Real.cos t_ua =
      Real.sin t_us * Real.sin t_ua *
        Real.cos (atan2 (bearY lat_u lon_u lat_a lon_a) (bearX lat_u lon_u lat_a lon_a) -
          atan2 (bearY lat_u lon_u lat_s lon_s) (bearX lat_u lon_u lat_s lon_s)) := by
    calc Real.cos t_sa - Real.cos t_us * Real.cos t_ua
        = bearX lat_u lon_u lat_a lon_a * bearX lat_u lon_u lat_s lon_s +
          bearY lat_u lon_u lat_a lon_a * bearY lat_u lon_u lat_s lon_s := hnum
      _ = (Real.sin t_ua * Real.cos (atan2 (bearY lat_u lon_u lat_a lon_a)
            (bearX lat_u lon_u lat_a lon_a))) *
          (Real.sin t_us * Real.cos (atan2 (bearY lat_u lon_u lat_s lon_s)
            (bearX lat_u lon_u lat_s lon_s))) +
          (Real.sin t_ua * Real.sin (atan2 (bearY lat_u lon_u lat_a lon_a)
            (bearX lat_u lon_u lat_a lon_a))) *
          (Real.sin t_us * Real.sin (atan2 (bearY lat_u lon_u lat_s lon_s)
            (bearX lat_u lon_u lat_s lon_s))) := by
          rw [hRAc, hRAs, hRSc, hRSs]
      _ = Real.sin t_us * Real.sin t_ua *
          (Real.cos (atan2 (bearY lat_u lon_u lat_a lon_a) (bearX lat_u lon_u lat_a lon_a)) *
            Real.cos (atan2 (bearY lat_u lon_u lat_s lon_s) (bearX lat_u lon_u lat_s lon_s)) +
          Real.sin (atan2 (bearY lat_u lon_u lat_a lon_a) (bearX lat_u lon_u lat_a lon_a)) *
            Real.sin (atan2 (bearY lat_u lon_u lat_s lon_s) (bearX lat_u lon_u lat_s lon_s))) := by
          ring
      _ = _ := by rw [Real.cos_sub]
  have hargdiv : (Real.cos t_sa - Real.cos t_us * Real.cos t_ua) /
      (Real.sin t_us * Real.sin t_ua) =
      Real.cos (atan2 (bearY lat_u lon_u lat_a lon_a) (bearX lat_u lon_u lat_a lon_a) -
        atan2 (bearY lat_u lon_u lat_s lon_s) (bearX lat_u lon_u lat_s lon_s)) := by
    rw [hargcos]
    field_simp
  have hargabs : ¬ (1 < |(Real.cos t_sa - Real.cos t_us * Real.cos t_ua) /
      (Real.sin t_us * Real.sin t_ua)|) := by
    rw [hargdiv]
    exact not_lt.mpr (Real.abs_cos_le_one _)
  have hstep3 : step_3 t_us t_ua t_sa = .ok (Real.arccos
      ((Real.cos t_sa - Real.cos t_us * Real.cos t_ua) /
        (Real.sin t_us * Real.sin t_ua))) := by
    unfold step_3
    rw [if_neg (ne_of_gt hbpos), if_neg hargabs]
  -- choosing the flag so that the projected azimuth is the true bearing
  obtain ⟨hbS1, hbS2⟩ := atan2_mem_Ioc (bearY lat_u lon_u lat_s lon_s)
    (bearX lat_u lon_u lat_s lon_s)
  obtain ⟨hbA1, hbA2⟩ := atan2_mem_Ioc (bearY lat_u lon_u lat_a lon_a)
    (bearX lat_u lon_u lat_a lon_a)
  obtain ⟨south, k, hflag⟩ := exists_flag
    (atan2 (bearY lat_u lon_u lat_s lon_s) (bearX lat_u lon_u lat_s lon_s))
    (atan2 (bearY lat_u lon_u lat_a lon_a) (bearX lat_u lon_u lat_a lon_a))
    hbS1 hbS2 hbA1 hbA2
  have hifeq : (if south then psi + Real.arccos
      ((Real.cos t_sa - Real.cos t_us * Real.cos t_ua) / (Real.sin t_us * Real.sin t_ua))
    else psi - Real.arccos
      ((Real.cos t_sa - Real.cos t_us * Real.cos t_ua) / (Real.sin t_us * Real.sin t_ua))) =
      atan2 (bearY lat_u lon_u lat_a lon_a) (bearX lat_u lon_u lat_a lon_a) + 2*π*k := by
    rw [hpsi, hargdiv]
    exact hflag
  have hψcos : Real.cos (if south then psi + Real.arccos
      ((Real.cos t_sa - Real.cos t_us * Real.cos t_ua) / (Real.sin t_us * Real.sin t_ua))
    else psi - Real.arccos
      ((Real.cos t_sa - Real.cos t_us * Real.cos t_ua) / (Real.sin t_us * Real.sin t_ua))) =
      Real.cos (atan2 (bearY lat_u lon_u lat_a lon_a) (bearX lat_u lon_u lat_a lon_a)) := by
    rw [hifeq, show atan2 (bearY lat_u lon_u lat_a lon_a) (bearX lat_u lon_u lat_a lon_a) +
      2*π*(k:ℝ) = atan2 (bearY lat_u lon_u lat_a lon_a) (bearX lat_u lon_u lat_a lon_a) +
      (k:ℝ)*(2*π) by ring]
    exact Real.cos_add_int_mul_two_pi _ k
  have hψsin : Real.sin (if south then psi + Real.arccos
      ((Real.cos t_sa - Real.cos t_us * Real.cos t_ua) / (Real.sin t_us * Real.sin t_ua))
    else psi - Real.arccos
      ((Real.cos t_sa - Real.cos t_us * Real.cos t_ua) / (Real.sin t_us * Real.sin t_ua))) =
      Real.sin (atan2 (bearY lat_u lon_u lat_a lon_a) (bearX lat_u lon_u lat_a lon_a)) := by
    rw [hifeq, show atan2 (bearY lat_u lon_u lat_a lon_a) (bearX lat_u lon_u lat_a lon_a) +
      2*π*(k:ℝ) = atan2 (bearY lat_u lon_u lat_a lon_a) (bearX lat_u lon_u lat_a lon_a) +
      (k:ℝ)*(2*π) by ring]
    exact Real.sin_add_int_mul_two_pi _ k
  -- step_4 evaluates to the aircraft position
  have hlatarg : Real.sin lat_u * Real.cos t_ua + Real.cos lat_u * Real.sin t_ua *
      Real.cos (if south then psi + Real.arccos
        ((Real.cos t_sa - Real.cos t_us * Real.cos t_ua) / (Real.sin t_us * Real.sin t_ua))
      else psi - Real.arccos
        ((Real.cos t_sa - Real.cos t_us * Real.cos t_ua) / (Real.sin t_us * Real.sin t_ua))) =
      Real.sin lat_a := by
    rw [hψcos, show Real.cos lat_u * Real.sin t_ua *
      Real.cos (atan2 (bearY lat_u lon_u lat_a lon_a) (bearX lat_u lon_u lat_a lon_a)) =
      Real.cos lat_u * (Real.sin t_ua *
        Real.cos (atan2 (bearY lat_u lon_u lat_a lon_a) (bearX lat_u lon_u lat_a lon_a)))
      by ring, hRAc, hcosUA]
    unfold dotp bearX
    linear_combination alg_lat (Real.sin lat_u) (Real.cos lat_u) (Real.sin lat_a)
      (Real.cos lat_a) (Real.cos (lon_a - lon_u)) (Real.sin_sq_add_cos_sq lat_u)
  have hguard4 : ¬ (1 < |Real.sin lat_u * Real.cos t_ua + Real.cos lat_u * Real.sin t_ua *
      Real.cos (if south then psi + Real.arccos
        ((Real.cos t_sa - Real.cos t_us * Real.cos t_ua) / (Real.sin t_us * Real.sin t_ua))
      else psi - Real.arccos
        ((Real.cos t_sa - Real.cos t_us * Real.cos t_ua) / (Real.sin t_us * Real.sin t_ua)))|) := by
    rw [hlatarg]
    exact not_lt.mpr (Real.abs_sin_le_one _)
  have hlonY : Real.sin (if south then psi + Real.arccos
      ((Real.cos t_sa - Real.cos t_us * Real.cos t_ua) / (Real.sin t_us * Real.sin t_ua))
    else psi - Real.arccos
      ((Real.cos t_sa - Real.cos t_us * Real.cos t_ua) / (Real.sin t_us * Real.sin t_ua))) *
      Real.sin t_ua = Real.cos lat_a * Real.sin (lon_a - lon_u) := by
    rw [hψsin, mul_comm, hRAs]
    unfold bearY
    rfl
  have hlonX : Real.cos lat_u * Real.cos t_ua - Real.sin lat_u * Real.sin t_ua *
      Real.cos (if south then psi + Real.arccos
        ((Real.cos t_sa - Real.cos t_us * Real.cos t_ua) / (Real.sin t_us * Real.sin t_ua))
      else psi - Real.arccos
        ((Real.cos t_sa - Real.cos t_us * Real.cos t_ua) / (Real.sin t_us * Real.sin t_ua))) =
      Real.cos lat_a * Real.cos (lon_a - lon_u) := by
    rw [hψcos, show Real.sin lat_u * Real.sin t_ua *
      Real.cos (atan2 (bearY lat_u lon_u lat_a lon_a) (bearX lat_u lon_u lat_a lon_a)) =
      Real.sin lat_u * (Real.sin t_ua *
        Real.cos (atan2 (bearY lat_u lon_u lat_a lon_a) (bearX lat_u lon_u lat_a lon_a)))
      by ring, hRAc, hcosUA]
    unfold dotp bearX
    linear_combination alg_lon (Real.sin lat_u) (Real.cos lat_u) (Real.sin lat_a)
      (Real.cos lat_a) (Real.cos (lon_a - lon_u)) (Real.sin_sq_add_cos_sq lat_u)
  have hca : 0 < Real.cos lat_a := Real.cos_pos_of_mem_Ioo ⟨ha1, ha2⟩
  obtain ⟨k2, hrot⟩ := atan2_rot (Real.cos lat_a) (lon_a - lon_u) hca
  have heq4 : step_4 south lat_u lon_u (Real.arccos
      ((Real.cos t_sa - Real.cos t_us * Real.cos t_ua) / (Real.sin t_us * Real.sin t_ua)))
      psi t_ua = .ok (lat_a, lon_a - lon_u - 2*π*k2 + lon_u) := by
    unfold step_4
    rw [if_neg hguard4, hlatarg, Real.arcsin_sin (le_of_lt ha1) (le_of_lt ha2),
      hlonY, hlonX, hrot]
  refine ⟨hstep2, _, hstep3, south, _, -k2, heq4, ?_⟩
  push_cast
  ring

/-- Counterexample for C3 as stated: stations U = (0, 0) and S = (0, 1)
are not coincident, and the aircraft sits exactly at U.  The forward
haversine distances are theta_UA = 0, theta_SA = 1, theta_US = 1; step_2
accepts them (1 + 0 is not below 1, |0 - 1| is not above 1), yet step_3
fails with a ZeroDivisionError because sin(theta_US) * sin(theta_UA) = 0,
so the pipeline produces no candidate positions at all and no resulting
pair can match the aircraft position. -/
theorem pipeline_roundtrip_cex :
    ((0:ℝ) ≠ (1:ℝ)) ∧
    (∃ b1, step_1 (0:ℝ) 0 0 0 = .ok (0, b1)) ∧
    (∃ b2, step_1 (0:ℝ) 0 0 1 = .ok (1, b2)) ∧
    step_2 1 0 1 = true ∧
    step_3 1 0 1 = .error .zeroDivision := by
  have h1 : step_1 (0:ℝ) 0 0 0 = .ok (0,
      atan2 (Real.cos 0 * Real.sin ((0:ℝ) - 0))
        (Real.sin 0 * Real.cos 0 - Real.cos 0 * Real.sin 0 * Real.cos ((0:ℝ) - 0))) :=
    step_1_eq_ok_of 0 0 0 0 0 _ (by simp) (le_refl 0) (le_of_lt Real.pi_pos) rfl
  have h2 : step_1 (0:ℝ) 0 0 1 = .ok (1,
      atan2 (Real.cos 0 * Real.sin ((1:ℝ) - 0))
        (Real.sin 0 * Real.cos 0 - Real.cos 0 * Real.sin 0 * Real.cos ((1:ℝ) - 0))) := by
    refine step_1_eq_ok_of 0 0 0 1 1 _ ?_ (by norm_num) (by linarith [Real.pi_gt_three]) rfl
    rw [show (1/2)*((1:ℝ) - 0) = (1/2)*(1:ℝ) by norm_num]
    simp
    ring
  refine ⟨by norm_num, ⟨_, h1⟩, ⟨_, h2⟩, ?_, ?_⟩
  · unfold step_2
    rw [if_neg (by norm_num), if_neg ?_]
    rw [show (0:ℝ) - 1 = -1 by norm_num, abs_neg, abs_one]
    norm_num
  · unfold step_3
    rw [if_pos (by rw [Real.sin_zero, mul_zero])]

/-- Witness for C3 (amended) with U = (0, 0), S = (0, pi/2) and the
aircraft at A = (0, pi/4), for which theta_UA = theta_SA = pi/4 and
theta_US = pi/2. -/
theorem pipeline_roundtrip_witness :
    (((-(π/2) ≤ (0:ℝ) ∧ (0:ℝ) ≤ π/2 ∧ -(π/2) < (0:ℝ) ∧ (0:ℝ) < π/2) ∧
      (-π < (0:ℝ) ∧ (0:ℝ) ≤ π ∧ -π < π/2 ∧ π/2 ≤ π) ∧
      ((0:ℝ) < π/4 ∧ π/4 < π ∧ (0:ℝ) < π/2 ∧ π/2 < π)) ∧
     (step_1 0 (π/4) 0 0 = .ok (π/4,
        atan2 (Real.cos 0 * Real.sin (0 - π/4))
          (Real.sin 0 * Real.cos 0 - Real.cos 0 * Real.sin 0 * Real.cos (0 - π/4))) ∧
      step_1 0 (π/4) 0 (π/2) = .ok (π/4,
        atan2 (Real.cos 0 * Real.sin (π/2 - π/4))
          (Real.sin 0 * Real.cos 0 - Real.cos 0 * Real.sin 0 * Real.cos (π/2 - π/4))) ∧
      step_1 0 0 0 (π/2) = .ok (π/2,
        atan2 (Real.cos 0 * Real.sin (π/2 - 0))
          (Real.sin 0 * Real.cos 0 - Real.cos 0 * Real.sin 0 * Real.cos (π/2 - 0))))) ∧
    (step_2 (π/2) (π/4) (π/4) = true ∧
      ∃ β, step_3 (π/2) (π/4) (π/4) = .ok β ∧
        ∃ (south : Bool) (lo : ℝ) (k : ℤ),
          step_4 south 0 0 β (atan2 (Real.cos 0 * Real.sin (π/2 - 0))
            (Real.sin 0 * Real.cos 0 - Real.cos 0 * Real.sin 0 * Real.cos (π/2 - 0)))
            (π/4) = .ok (0, lo) ∧ lo = π/4 + 2*π*k) := by
  have hpi := Real.pi_pos
  have hUA : step_1 0 (π/4) 0 0 = .ok (π/4,
      atan2 (Real.cos 0 * Real.sin (0 - π/4))
        (Real.sin 0 * Real.cos 0 - Real.cos 0 * Real.sin 0 * Real.cos (0 - π/4))) := by
    refine step_1_eq_ok_of 0 (π/4) 0 0 (π/4) _ ?_ (by linarith) (by linarith) rfl
    have hneg : Real.sin ((1/2)*((0:ℝ) - π/4)) = -Real.sin ((1/2)*(π/4)) := by
      rw [show (1/2)*((0:ℝ) - π/4) = -((1/2)*(π/4)) by ring, Real.sin_neg]
    rw [hneg, show (1/2)*((0:ℝ) - 0) = 0 by norm_num, Real.sin_zero, Real.cos_zero]
    ring
  have hSA : step_1 0 (π/4) 0 (π/2) = .ok (π/4,
      atan2 (Real.cos 0 * Real.sin (π/2 - π/4))
        (Real.sin 0 * Real.cos 0 - Real.cos 0 * Real.sin 0 * Real.cos (π/2 - π/4))) := by
    refine step_1_eq_ok_of 0 (π/4) 0 (π/2) (π/4) _ ?_ (by linarith) (by linarith) rfl
    rw [show (1/2)*(π/2 - π/4) = (1/2)*(π/4) by ring,
      show (1/2)*((0:ℝ) - 0) = 0 by norm_num, Real.sin_zero, Real.cos_zero]
    ring
  have hUS : step_1 0 0 0 (π/2) = .ok (π/2,
      atan2 (Real.cos 0 * Real.sin (π/2 - 0))
        (Real.sin 0 * Real.cos 0 - Real.cos 0 * Real.sin 0 * Real.cos (π/2 - 0))) := by
    refine step_1_eq_ok_of 0 0 0 (π/2) (π/2) _ ?_ (by linarith) (by linarith) rfl
    rw [show (1/2)*(π/2 - (0:ℝ)) = (1/2)*(π/2) by ring,
      show (1/2)*((0:ℝ) - 0) = 0 by norm_num, Real.sin_zero, Real.cos_zero]
    ring
  refine ⟨⟨⟨⟨by linarith, by linarith, by linarith, by linarith⟩,
    ⟨by linarith, by linarith, by linarith, by linarith⟩,
    ⟨by linarith, by linarith, by linarith, by linarith⟩⟩, hUA, hSA, hUS⟩, ?_⟩
  exact pipeline_roundtrip 0 0 0 (π/2) 0 (π/4) (π/4) _ (π/4) _ (π/2) _
    (by linarith) (by linarith) (by linarith) (by linarith) (by linarith) (by linarith)
    (by linarith) (by linarith) (by linarith) (by linarith)
    hUA hSA hUS (by linarith) (by linarith) (by linarith) (by linarith)
